import Mathlib

/-!
Shallow embedding of the tap-and-drag state machine of
`src/evdev-mt-touchpad-tap.c` (libinput touchpad tap subsystem).

Conventions of the embedding:
* Timestamps are microseconds, modelled as `Nat` (the C `uint64_t` never
  overflows in any scenario considered here and all arithmetic is addition).
* `tp->tap.buttons_pressed` is a bitmask modelled as `Nat`; the C clear
  operation `buttons_pressed &= ~(1 << n)` on the 32-bit unsigned field is
  written `bp &&& (4294967295 ^^^ (1 <<< n))`, the literal two-complement
  meaning of `& ~mask` at that width.
* The single timer is an `Option Nat` holding the pending deadline
  (`none` = cancelled); `libinput_timer_set` overwrites the deadline.
* Every call to `evdev_pointer_notify_button` performed through
  `tp_tap_notify` is logged as an `Emission`; the `nfingers` field records
  the finger-count argument of the `tp_tap_notify` call that produced it.
* Out-of-scope collaborators (geometry helper giving the distance in mm,
  palm/thumb classification predicates) are oracles: a function parameter
  for the distance and per-touch boolean fields for the predicates, exactly
  the values the C code would read from them this tick.
-/

namespace EvdevTap

/-- Global tap state machine states, mirroring enum tp_tap_state. -/
inductive TpTapState where
  | IDLE
  | TOUCH
  | HOLD
  | TAPPED
  | TOUCH_2
  | TOUCH_2_HOLD
  | TOUCH_2_RELEASE
  | TOUCH_3
  | TOUCH_3_HOLD
  | DRAGGING
  | DRAGGING_WAIT
  | DRAGGING_OR_DOUBLETAP
  | DRAGGING_OR_TAP
  | DRAGGING_2
  | DEAD
  deriving DecidableEq

/-- Per-touch tap states, mirroring enum tp_tap_touch_state (t->tap.state). -/
inductive TouchTapState where
  | IDLE
  | TOUCH
  | DEAD
  deriving DecidableEq

/-- Upstream touch lifecycle states, mirroring enum touch_state (t->state). -/
inductive TouchState where
  | NONE
  | HOVERING
  | BEGIN
  | UPDATE
  | END
  deriving DecidableEq

/-- Tap state machine events, mirroring enum tap_event. -/
inductive TapEvent where
  | TOUCH
  | MOTION
  | RELEASE
  | BUTTON
  | TIMEOUT
  | THUMB
  | PALM
  | PALM_UP
  deriving DecidableEq

/-- DEFAULT_TAP_TIMEOUT_PERIOD = ms2us(180). -/
def DEFAULT_TAP_TIMEOUT_PERIOD : Nat := 180000

/-- DEFAULT_DRAG_TIMEOUT_PERIOD = ms2us(300). -/
def DEFAULT_DRAG_TIMEOUT_PERIOD : Nat := 300000

/-- Linux input button code BTN_LEFT (0x110). -/
def BTN_LEFT : Nat := 272

/-- Linux input button code BTN_RIGHT (0x111). -/
def BTN_RIGHT : Nat := 273

/-- Linux input button code BTN_MIDDLE (0x112). -/
def BTN_MIDDLE : Nat := 274

/-- Public libinput config status code LIBINPUT_CONFIG_STATUS_SUCCESS. -/
def LIBINPUT_CONFIG_STATUS_SUCCESS : Nat := 0

/-- Public libinput enum value LIBINPUT_CONFIG_TAP_MAP_LRM (the default map). -/
def LIBINPUT_CONFIG_TAP_MAP_LRM : Nat := 0

/-- Public libinput enum value LIBINPUT_CONFIG_TAP_MAP_LMR. -/
def LIBINPUT_CONFIG_TAP_MAP_LMR : Nat := 1

/-- Public libinput enum value LIBINPUT_CONFIG_TAP_ENABLED. -/
def LIBINPUT_CONFIG_TAP_ENABLED : Nat := 1

/-- The tap-observation fields stored inside each touch slot (t->tap in C). -/
structure TouchTap where
  state : TouchTapState
  is_palm : Bool
  is_thumb : Bool
  initial : Int × Int
  deriving DecidableEq

/-- The tap dispatch state (tp->tap in C): the global FSM and its config. -/
structure TapDispatch where
  state : TpTapState
  enabled : Bool
  suspended : Bool
  /-- Active tap-to-button map: 0 = LRM, 1 = LMR (raw enum value). -/
  map : Nat
  /-- Pending map, applied by tp_tap_update_map when the state is IDLE. -/
  want_map : Nat
  drag_enabled : Bool
  drag_lock_enabled : Bool
  nfingers_down : Nat
  buttons_pressed : Nat
  saved_press_time : Nat
  saved_release_time : Nat
  /-- The single tap timer: some deadline when armed, none when cancelled. -/
  timer : Option Nat
  deriving DecidableEq

/-- One synthetic button event handed to evdev_pointer_notify_button by
tp_tap_notify.  `nfingers` records the finger-count argument of the call. -/
structure Emission where
  time : Nat
  button : Nat
  nfingers : Nat
  pressed : Bool
  deriving DecidableEq

/-- The button_map lookup in tp_tap_notify: row 0 is LRM, row 1 is LMR.
The C code asserts map < 2; other map values never reach this lookup in a
run of the program, the result returned for them here is immaterial. -/
def button_of_map (map nfingers : Nat) : Nat :=
  if map = 0 then
    if nfingers = 1 then BTN_LEFT else if nfingers = 2 then BTN_RIGHT else BTN_MIDDLE
  else
    if nfingers = 1 then BTN_LEFT else if nfingers = 2 then BTN_MIDDLE else BTN_RIGHT

/-- tp_tap_notify: drop finger counts above 3, update the buttons_pressed
bitmask, and post the button event. -/
def tp_tap_notify (d : TapDispatch) (time nfingers : Nat) (pressed : Bool) :
    TapDispatch × List Emission :=
  if 3 < nfingers then (d, [])
  else
    let button := button_of_map d.map nfingers
    let bp := if pressed then d.buttons_pressed ||| (1 <<< nfingers)
              else d.buttons_pressed &&& (4294967295 ^^^ (1 <<< nfingers))
    ({d with buttons_pressed := bp}, [⟨time, button, nfingers, pressed⟩])

/-- tp_tap_set_timer: arm the timer at time + DEFAULT_TAP_TIMEOUT_PERIOD. -/
def tp_tap_set_timer (d : TapDispatch) (time : Nat) : TapDispatch :=
  {d with timer := some (time + DEFAULT_TAP_TIMEOUT_PERIOD)}

/-- tp_tap_set_drag_timer: arm the timer at time + DEFAULT_DRAG_TIMEOUT_PERIOD. -/
def tp_tap_set_drag_timer (d : TapDispatch) (time : Nat) : TapDispatch :=
  {d with timer := some (time + DEFAULT_DRAG_TIMEOUT_PERIOD)}

/-- tp_tap_clear_timer: cancel the timer (idempotent). -/
def tp_tap_clear_timer (d : TapDispatch) : TapDispatch :=
  {d with timer := none}

/-- Mark the event touch dead (t->tap.state = TAP_TOUCH_STATE_DEAD). -/
def touch_mark_dead (t : Option TouchTap) : Option TouchTap :=
  t.map (fun tt => {tt with state := TouchTapState.DEAD})

/-- tp_tap_move_to_dead: global state to DEAD, touch dead, cancel timer. -/
def tp_tap_move_to_dead (d : TapDispatch) (t : Option TouchTap) :
    TapDispatch × Option TouchTap :=
  (tp_tap_clear_timer {d with state := TpTapState.DEAD}, touch_mark_dead t)

/-- tp_tap_idle_handle_event.  The MOTION and THUMB arms only log a bug. -/
def tp_tap_idle_handle_event (d : TapDispatch) (t : Option TouchTap)
    (e : TapEvent) (time : Nat) :
    TapDispatch × Option TouchTap × List Emission :=
  match e with
  | .TOUCH =>
      (tp_tap_set_timer {d with state := .TOUCH, saved_press_time := time} time, t, [])
  | .RELEASE => (d, t, [])
  | .MOTION => (d, t, [])
  | .TIMEOUT => (d, t, [])
  | .BUTTON => ({d with state := .DEAD}, t, [])
  | .THUMB => (d, t, [])
  | .PALM => ({d with state := .IDLE}, t, [])
  | .PALM_UP => (d, t, [])

/-- tp_tap_touch_handle_event. -/
def tp_tap_touch_handle_event (d : TapDispatch) (t : Option TouchTap)
    (e : TapEvent) (time : Nat) :
    TapDispatch × Option TouchTap × List Emission :=
  match e with
  | .TOUCH =>
      (tp_tap_set_timer {d with state := .TOUCH_2, saved_press_time := time} time, t, [])
  | .RELEASE =>
      let r1 := tp_tap_notify d d.saved_press_time 1 true
      if r1.1.drag_enabled then
        (tp_tap_set_timer {r1.1 with state := .TAPPED, saved_release_time := time} time,
         t, r1.2)
      else
        let r2 := tp_tap_notify r1.1 time 1 false
        ({r2.1 with state := .IDLE}, t, r1.2 ++ r2.2)
  | .MOTION =>
      let r := tp_tap_move_to_dead d t
      (r.1, r.2, [])
  | .TIMEOUT => (tp_tap_clear_timer {d with state := .HOLD}, t, [])
  | .BUTTON => ({d with state := .DEAD}, t, [])
  | .THUMB =>
      (tp_tap_clear_timer {d with state := .IDLE, nfingers_down := d.nfingers_down - 1},
       t.map (fun tt => {tt with is_thumb := true, state := TouchTapState.DEAD}), [])
  | .PALM => (tp_tap_clear_timer {d with state := .IDLE}, t, [])
  | .PALM_UP => (d, t, [])

/-- tp_tap_hold_handle_event. -/
def tp_tap_hold_handle_event (d : TapDispatch) (t : Option TouchTap)
    (e : TapEvent) (time : Nat) :
    TapDispatch × Option TouchTap × List Emission :=
  match e with
  | .TOUCH =>
      (tp_tap_set_timer {d with state := .TOUCH_2, saved_press_time := time} time, t, [])
  | .RELEASE => ({d with state := .IDLE}, t, [])
  | .MOTION =>
      let r := tp_tap_move_to_dead d t
      (r.1, r.2, [])
  | .TIMEOUT => (d, t, [])
  | .BUTTON => ({d with state := .DEAD}, t, [])
  | .THUMB =>
      ({d with state := .IDLE, nfingers_down := d.nfingers_down - 1},
       t.map (fun tt => {tt with is_thumb := true, state := TouchTapState.DEAD}), [])
  | .PALM => ({d with state := .IDLE}, t, [])
  | .PALM_UP => (d, t, [])

/-- tp_tap_tapped_handle_event.  MOTION/RELEASE/THUMB only log a bug. -/
def tp_tap_tapped_handle_event (d : TapDispatch) (t : Option TouchTap)
    (e : TapEvent) (time : Nat) :
    TapDispatch × Option TouchTap × List Emission :=
  match e with
  | .MOTION => (d, t, [])
  | .RELEASE => (d, t, [])
  | .TOUCH =>
      (tp_tap_set_timer {d with state := .DRAGGING_OR_DOUBLETAP, saved_press_time := time}
        time, t, [])
  | .TIMEOUT =>
      let r := tp_tap_notify {d with state := .IDLE} d.saved_release_time 1 false
      (r.1, t, r.2)
  | .BUTTON =>
      let r := tp_tap_notify {d with state := .DEAD} d.saved_release_time 1 false
      (r.1, t, r.2)
  | .THUMB => (d, t, [])
  | .PALM => (d, t, [])
  | .PALM_UP => (d, t, [])

/-- tp_tap_touch2_handle_event. -/
def tp_tap_touch2_handle_event (d : TapDispatch) (t : Option TouchTap)
    (e : TapEvent) (time : Nat) :
    TapDispatch × Option TouchTap × List Emission :=
  match e with
  | .TOUCH =>
      (tp_tap_set_timer {d with state := .TOUCH_3, saved_press_time := time} time, t, [])
  | .RELEASE =>
      (tp_tap_set_timer {d with state := .TOUCH_2_RELEASE, saved_release_time := time}
        time, t, [])
  | .MOTION =>
      let r := tp_tap_move_to_dead d t
      (r.1, r.2, [])
  | .TIMEOUT => ({d with state := .TOUCH_2_HOLD}, t, [])
  | .BUTTON => ({d with state := .DEAD}, t, [])
  | .THUMB => (d, t, [])
  | .PALM => (tp_tap_set_timer {d with state := .TOUCH} time, t, [])
  | .PALM_UP => (d, t, [])

/-- tp_tap_touch2_hold_handle_event. -/
def tp_tap_touch2_hold_handle_event (d : TapDispatch) (t : Option TouchTap)
    (e : TapEvent) (time : Nat) :
    TapDispatch × Option TouchTap × List Emission :=
  match e with
  | .TOUCH =>
      (tp_tap_set_timer {d with state := .TOUCH_3, saved_press_time := time} time, t, [])
  | .RELEASE => ({d with state := .HOLD}, t, [])
  | .MOTION =>
      let r := tp_tap_move_to_dead d t
      (r.1, r.2, [])
  | .TIMEOUT => ({d with state := .TOUCH_2_HOLD}, t, [])
  | .BUTTON => ({d with state := .DEAD}, t, [])
  | .THUMB => (d, t, [])
  | .PALM => ({d with state := .HOLD}, t, [])
  | .PALM_UP => (d, t, [])

/-- tp_tap_touch2_release_handle_event. -/
def tp_tap_touch2_release_handle_event (d : TapDispatch) (t : Option TouchTap)
    (e : TapEvent) (time : Nat) :
    TapDispatch × Option TouchTap × List Emission :=
  match e with
  | .TOUCH =>
      (tp_tap_clear_timer {d with state := .TOUCH_2_HOLD}, touch_mark_dead t, [])
  | .RELEASE =>
      let r1 := tp_tap_notify d d.saved_press_time 2 true
      let r2 := tp_tap_notify r1.1 r1.1.saved_release_time 2 false
      ({r2.1 with state := .IDLE}, t, r1.2 ++ r2.2)
  | .MOTION =>
      let r := tp_tap_move_to_dead d t
      (r.1, r.2, [])
  | .TIMEOUT => ({d with state := .HOLD}, t, [])
  | .BUTTON => ({d with state := .DEAD}, t, [])
  | .THUMB => (d, t, [])
  | .PALM =>
      let r1 := tp_tap_notify d d.saved_press_time 1 true
      if r1.1.drag_enabled then
        (tp_tap_set_timer {r1.1 with state := .TAPPED, saved_release_time := time} time,
         t, r1.2)
      else
        let r2 := tp_tap_notify r1.1 time 1 false
        ({r2.1 with state := .IDLE}, t, r1.2 ++ r2.2)
  | .PALM_UP => (d, t, [])

/-- tp_tap_touch3_handle_event.  The RELEASE arm emits the 3-finger tap only
when the per-touch state of the released touch is still TOUCH. -/
def tp_tap_touch3_handle_event (d : TapDispatch) (t : Option TouchTap)
    (e : TapEvent) (time : Nat) :
    TapDispatch × Option TouchTap × List Emission :=
  match e with
  | .TOUCH => (tp_tap_clear_timer {d with state := .DEAD}, t, [])
  | .MOTION =>
      let r := tp_tap_move_to_dead d t
      (r.1, r.2, [])
  | .TIMEOUT => (tp_tap_clear_timer {d with state := .TOUCH_3_HOLD}, t, [])
  | .RELEASE =>
      let d1 := {d with state := TpTapState.TOUCH_2_HOLD}
      match t with
      | some tt =>
          if tt.state = TouchTapState.TOUCH then
            let r1 := tp_tap_notify d1 d1.saved_press_time 3 true
            let r2 := tp_tap_notify r1.1 time 3 false
            (r2.1, t, r1.2 ++ r2.2)
          else (d1, t, [])
      | none => (d1, t, [])
  | .BUTTON => ({d with state := .DEAD}, t, [])
  | .THUMB => (d, t, [])
  | .PALM => ({d with state := .TOUCH_2}, t, [])
  | .PALM_UP => (d, t, [])

/-- tp_tap_touch3_hold_handle_event.  Note that the TOUCH arm arms the timer
while moving to DEAD. -/
def tp_tap_touch3_hold_handle_event (d : TapDispatch) (t : Option TouchTap)
    (e : TapEvent) (time : Nat) :
    TapDispatch × Option TouchTap × List Emission :=
  match e with
  | .TOUCH => (tp_tap_set_timer {d with state := .DEAD} time, t, [])
  | .RELEASE => ({d with state := .TOUCH_2_HOLD}, t, [])
  | .MOTION =>
      let r := tp_tap_move_to_dead d t
      (r.1, r.2, [])
  | .TIMEOUT => (d, t, [])
  | .BUTTON => ({d with state := .DEAD}, t, [])
  | .THUMB => (d, t, [])
  | .PALM => ({d with state := .TOUCH_2_HOLD}, t, [])
  | .PALM_UP => (d, t, [])

/-- tp_tap_dragging_or_doubletap_handle_event. -/
def tp_tap_dragging_or_doubletap_handle_event (d : TapDispatch) (t : Option TouchTap)
    (e : TapEvent) (time : Nat) :
    TapDispatch × Option TouchTap × List Emission :=
  match e with
  | .TOUCH => ({d with state := .DRAGGING_2}, t, [])
  | .RELEASE =>
      let d1 := {d with state := TpTapState.TAPPED}
      let r1 := tp_tap_notify d1 d1.saved_release_time 1 false
      let r2 := tp_tap_notify r1.1 r1.1.saved_press_time 1 true
      (tp_tap_set_timer {r2.1 with saved_release_time := time} time, t, r1.2 ++ r2.2)
  | .MOTION => ({d with state := .DRAGGING}, t, [])
  | .TIMEOUT => ({d with state := .DRAGGING}, t, [])
  | .BUTTON =>
      let r := tp_tap_notify {d with state := .DEAD} d.saved_release_time 1 false
      (r.1, t, r.2)
  | .THUMB => (d, t, [])
  | .PALM => ({d with state := .TAPPED}, t, [])
  | .PALM_UP => (d, t, [])

/-- tp_tap_dragging_handle_event. -/
def tp_tap_dragging_handle_event (d : TapDispatch) (t : Option TouchTap)
    (e : TapEvent) (time : Nat) :
    TapDispatch × Option TouchTap × List Emission :=
  match e with
  | .TOUCH => ({d with state := .DRAGGING_2}, t, [])
  | .RELEASE =>
      if d.drag_lock_enabled then
        (tp_tap_set_drag_timer {d with state := .DRAGGING_WAIT} time, t, [])
      else
        let r := tp_tap_notify d time 1 false
        ({r.1 with state := .IDLE}, t, r.2)
  | .MOTION => (d, t, [])
  | .TIMEOUT => (d, t, [])
  | .BUTTON =>
      let r := tp_tap_notify {d with state := .DEAD} time 1 false
      (r.1, t, r.2)
  | .THUMB => (d, t, [])
  | .PALM =>
      let r := tp_tap_notify d d.saved_release_time 1 false
      ({r.1 with state := .IDLE}, t, r.2)
  | .PALM_UP => (d, t, [])

/-- tp_tap_dragging_wait_handle_event. -/
def tp_tap_dragging_wait_handle_event (d : TapDispatch) (t : Option TouchTap)
    (e : TapEvent) (time : Nat) :
    TapDispatch × Option TouchTap × List Emission :=
  match e with
  | .TOUCH => (tp_tap_set_timer {d with state := .DRAGGING_OR_TAP} time, t, [])
  | .RELEASE => (d, t, [])
  | .MOTION => (d, t, [])
  | .TIMEOUT =>
      let r := tp_tap_notify {d with state := .IDLE} time 1 false
      (r.1, t, r.2)
  | .BUTTON =>
      let r := tp_tap_notify {d with state := .DEAD} time 1 false
      (r.1, t, r.2)
  | .THUMB => (d, t, [])
  | .PALM => (d, t, [])
  | .PALM_UP => (d, t, [])

/-- tp_tap_dragging_tap_handle_event (state DRAGGING_OR_TAP). -/
def tp_tap_dragging_tap_handle_event (d : TapDispatch) (t : Option TouchTap)
    (e : TapEvent) (time : Nat) :
    TapDispatch × Option TouchTap × List Emission :=
  match e with
  | .TOUCH => (tp_tap_clear_timer {d with state := .DRAGGING_2}, t, [])
  | .RELEASE =>
      let r := tp_tap_notify {d with state := .IDLE} time 1 false
      (r.1, t, r.2)
  | .MOTION => ({d with state := .DRAGGING}, t, [])
  | .TIMEOUT => ({d with state := .DRAGGING}, t, [])
  | .BUTTON =>
      let r := tp_tap_notify {d with state := .DEAD} time 1 false
      (r.1, t, r.2)
  | .THUMB => (d, t, [])
  | .PALM =>
      let r := tp_tap_notify d d.saved_release_time 1 false
      ({r.1 with state := .IDLE}, t, r.2)
  | .PALM_UP => (d, t, [])

/-- tp_tap_dragging2_handle_event. -/
def tp_tap_dragging2_handle_event (d : TapDispatch) (t : Option TouchTap)
    (e : TapEvent) (time : Nat) :
    TapDispatch × Option TouchTap × List Emission :=
  match e with
  | .RELEASE => ({d with state := .DRAGGING}, t, [])
  | .TOUCH =>
      let r := tp_tap_notify {d with state := .DEAD} time 1 false
      (r.1, t, r.2)
  | .MOTION => (d, t, [])
  | .TIMEOUT => (d, t, [])
  | .BUTTON =>
      let r := tp_tap_notify {d with state := .DEAD} time 1 false
      (r.1, t, r.2)
  | .THUMB => (d, t, [])
  | .PALM => ({d with state := .DRAGGING_OR_DOUBLETAP}, t, [])
  | .PALM_UP => (d, t, [])

/-- tp_tap_dead_handle_event: drain fingers, back to IDLE on the last one. -/
def tp_tap_dead_handle_event (d : TapDispatch) (t : Option TouchTap)
    (e : TapEvent) (time : Nat) :
    TapDispatch × Option TouchTap × List Emission :=
  match e with
  | .RELEASE =>
      if d.nfingers_down = 0 then ({d with state := .IDLE}, t, []) else (d, t, [])
  | .TOUCH => (d, t, [])
  | .MOTION => (d, t, [])
  | .TIMEOUT => (d, t, [])
  | .BUTTON => (d, t, [])
  | .THUMB => (d, t, [])
  | .PALM =>
      if d.nfingers_down = 0 then ({d with state := .IDLE}, t, []) else (d, t, [])
  | .PALM_UP =>
      if d.nfingers_down = 0 then ({d with state := .IDLE}, t, []) else (d, t, [])

/-- The per-state dispatch switch of tp_tap_handle_event, without the final
timer cancellation. -/
def tp_tap_handle_event_core (d : TapDispatch) (t : Option TouchTap)
    (e : TapEvent) (time : Nat) :
    TapDispatch × Option TouchTap × List Emission :=
  match d.state with
  | .IDLE => tp_tap_idle_handle_event d t e time
  | .TOUCH => tp_tap_touch_handle_event d t e time
  | .HOLD => tp_tap_hold_handle_event d t e time
  | .TAPPED => tp_tap_tapped_handle_event d t e time
  | .TOUCH_2 => tp_tap_touch2_handle_event d t e time
  | .TOUCH_2_HOLD => tp_tap_touch2_hold_handle_event d t e time
  | .TOUCH_2_RELEASE => tp_tap_touch2_release_handle_event d t e time
  | .TOUCH_3 => tp_tap_touch3_handle_event d t e time
  | .TOUCH_3_HOLD => tp_tap_touch3_hold_handle_event d t e time
  | .DRAGGING_OR_DOUBLETAP => tp_tap_dragging_or_doubletap_handle_event d t e time
  | .DRAGGING => tp_tap_dragging_handle_event d t e time
  | .DRAGGING_WAIT => tp_tap_dragging_wait_handle_event d t e time
  | .DRAGGING_OR_TAP => tp_tap_dragging_tap_handle_event d t e time
  | .DRAGGING_2 => tp_tap_dragging2_handle_event d t e time
  | .DEAD => tp_tap_dead_handle_event d t e time

/-- tp_tap_handle_event: dispatch on the current state, then cancel the
timer whenever the resulting state is IDLE or DEAD. -/
def tp_tap_handle_event (d : TapDispatch) (t : Option TouchTap)
    (e : TapEvent) (time : Nat) :
    TapDispatch × Option TouchTap × List Emission :=
  let r := tp_tap_handle_event_core d t e time
  (if r.1.state = TpTapState.IDLE ∨ r.1.state = TpTapState.DEAD
   then tp_tap_clear_timer r.1 else r.1,
   r.2.1, r.2.2)

/-- One FSM input for a trace run: the event, its timestamp and the tap
fields of the touch that carries it (none for NULL, as for BUTTON/TIMEOUT). -/
structure TraceStep where
  event : TapEvent
  time : Nat
  touch : Option TouchTap
  deriving DecidableEq

/-- Feed a list of events through tp_tap_handle_event, collecting all
emissions in order. -/
def runEvents : TapDispatch → List TraceStep → TapDispatch × List Emission
  | d, [] => (d, [])
  | d, s :: rest =>
      let r := tp_tap_handle_event d s.touch s.event s.time
      let r2 := runEvents r.1 rest
      (r2.1, r.2.2 ++ r2.2)

/-- One touch slot as the synthesiser sees it this tick.  `dirty`, `state`,
`was_down` and `point` are the upstream dispatcher fields; `palm_detected`
models `t->palm.state != PALM_NONE`; `thumb_ignored`, `thumb_ignored_for_tap`
and `palm_tap_is_palm` are the values of the out-of-scope classification
predicates for this touch this tick. -/
structure Touch where
  state : TouchState
  dirty : Bool
  was_down : Bool
  point : Int × Int
  palm_detected : Bool
  thumb_ignored : Bool
  thumb_ignored_for_tap : Bool
  palm_tap_is_palm : Bool
  tap : TouchTap
  deriving DecidableEq

/-- The touchpad dispatch (struct tp_dispatch): the tap subsystem state plus
the device-level fields the tap code reads. -/
structure TpDispatch where
  tap : TapDispatch
  /-- tp->nfingers_down: the real finger count, not the tap one. -/
  nfingers_down : Nat
  old_nfingers_down : Nat
  num_slots : Nat
  semi_mt : Bool
  /-- tp->device->model_flags & EVDEV_MODEL_SYNAPTICS_SERIAL_TOUCHPAD. -/
  model_synaptics_serial : Bool
  is_clickpad : Bool
  /-- tp->queued & TOUCHPAD_EVENT_BUTTON_PRESS. -/
  queued_button_press : Bool
  touches : List Touch
  deriving DecidableEq

/-- tp_tap_exceeds_motion_threshold.  `lenmm` is the out-of-scope composite
length_in_mm(tp_phys_delta(device_delta(point, initial))), modelled as an
exact rational distance in mm; DEFAULT_TAP_MOVE_THRESHOLD is 1.3 mm. -/
def tp_tap_exceeds_motion_threshold (lenmm : Int × Int → Int × Int → ℚ)
    (tp : TpDispatch) (t : Touch) : Bool :=
  if tp.model_synaptics_serial = true ∧
      (2 < tp.nfingers_down ∨ 2 < tp.old_nfingers_down) ∧
      (tp.num_slots < tp.nfingers_down ∨ tp.num_slots < tp.old_nfingers_down) then
    false
  else if tp.semi_mt = true ∧ tp.nfingers_down ≠ tp.old_nfingers_down then
    false
  else
    decide ((13 : ℚ) / 10 < lenmm t.point t.tap.initial)

/-- tp_tap_enabled: tapping is effective iff enabled and not suspended. -/
def tp_tap_enabled (tp : TpDispatch) : Bool :=
  tp.tap.enabled && !tp.tap.suspended

/-- Replace slot i of the touch list (no-op when i is out of range). -/
def updateTouch (tp : TpDispatch) (i : Nat) (f : Touch → Touch) : TpDispatch :=
  match tp.touches.get? i with
  | none => tp
  | some t => {tp with touches := tp.touches.set i (f t)}

/-- Run tp_tap_handle_event against the dispatch, reading and writing back
the tap fields of slot i (none models the NULL touch argument). -/
def tp_apply_event (tp : TpDispatch) (i : Option Nat) (e : TapEvent) (time : Nat) :
    TpDispatch × List Emission :=
  let tctx : Option TouchTap := i.bind (fun j => (tp.touches.get? j).map (fun t => t.tap))
  let r := tp_tap_handle_event tp.tap tctx e time
  let tp1 := {tp with tap := r.1}
  let tp2 :=
    match i, r.2.1 with
    | some j, some tt => updateTouch tp1 j (fun t => {t with tap := tt})
    | _, _ => tp1
  (tp2, r.2.2)

/-- The body of the touch loop of tp_tap_handle_state for slot i. -/
def tp_tap_process_touch (lenmm : Int × Int → Int × Int → ℚ)
    (tp : TpDispatch) (time : Nat) (i : Nat) : TpDispatch × List Emission :=
  match tp.touches.get? i with
  | none => (tp, [])
  | some t0 =>
    if t0.dirty = false ∨ t0.state = TouchState.NONE then (tp, [])
    else
      let t1 := if tp.is_clickpad = true ∧ tp.queued_button_press = true then
                  {t0 with tap := {t0.tap with state := TouchTapState.DEAD}}
                else t0
      let tp1 := {tp with touches := tp.touches.set i t1}
      if t1.tap.is_thumb then (tp1, [])
      else if t1.tap.is_palm then
        if t1.state = TouchState.END then
          tp_apply_event tp1 (some i) TapEvent.PALM_UP time
        else (tp1, [])
      else if t1.state = TouchState.HOVERING then (tp1, [])
      else if t1.palm_detected then
        let r := tp_apply_event tp1 (some i) TapEvent.PALM time
        let tp3 := updateTouch r.1 i (fun t =>
          {t with tap := {t.tap with is_palm := true, state := TouchTapState.DEAD}})
        let tp4 := if t1.state ≠ TouchState.BEGIN then
                     {tp3 with tap := {tp3.tap with
                        nfingers_down := tp3.tap.nfingers_down - 1}}
                   else tp3
        (tp4, r.2)
      else if t1.state = TouchState.BEGIN then
        if t1.thumb_ignored_for_tap then
          (updateTouch tp1 i (fun t => {t with tap := {t.tap with is_thumb := true}}), [])
        else
          let tp2 := updateTouch tp1 i (fun t =>
            {t with tap := {t.tap with state := TouchTapState.TOUCH, initial := t.point}})
          let tp3 := {tp2 with tap := {tp2.tap with
                        nfingers_down := tp2.tap.nfingers_down + 1}}
          let r1 := tp_apply_event tp3 (some i) TapEvent.TOUCH time
          if t1.palm_tap_is_palm then
            let r2 := tp_apply_event r1.1 (some i) TapEvent.MOTION time
            (r2.1, r1.2 ++ r2.2)
          else r1
      else if t1.state = TouchState.END then
        let r := if t1.was_down then
            tp_apply_event
              {tp1 with tap := {tp1.tap with
                 nfingers_down := tp1.tap.nfingers_down - 1}}
              (some i) TapEvent.RELEASE time
          else (tp1, [])
        (updateTouch r.1 i (fun t =>
           {t with tap := {t.tap with state := TouchTapState.IDLE}}), r.2)
      else if tp1.tap.state ≠ TpTapState.IDLE ∧ t1.thumb_ignored = true then
        tp_apply_event tp1 (some i) TapEvent.THUMB time
      else if tp1.tap.state ≠ TpTapState.IDLE ∧
              tp_tap_exceeds_motion_threshold lenmm tp1 t1 = true then
        let tp2 := {tp1 with touches := tp1.touches.map (fun tm =>
          if tm.tap.state = TouchTapState.TOUCH then
            {tm with tap := {tm.tap with state := TouchTapState.DEAD}}
          else tm)}
        tp_apply_event tp2 (some i) TapEvent.MOTION time
      else (tp1, [])

/-- The tp_for_each_touch loop: process slots i, i+1, ... while fuel lasts. -/
def tp_tap_touch_loop (lenmm : Int × Int → Int × Int → ℚ) (time : Nat) :
    TpDispatch → Nat → Nat → TpDispatch × List Emission
  | tp, _, 0 => (tp, [])
  | tp, i, Nat.succ fuel =>
      let r := tp_tap_process_touch lenmm tp time i
      let rest := tp_tap_touch_loop lenmm time r.1 (i + 1) fuel
      (rest.1, r.2 ++ rest.2)

/-- The filter_motion switch at the end of tp_tap_handle_state. -/
def tp_filter_motion_of_state (s : TpTapState) : Nat :=
  match s with
  | .TOUCH => 1
  | .TAPPED => 1
  | .DRAGGING_OR_DOUBLETAP => 1
  | .DRAGGING_OR_TAP => 1
  | .TOUCH_2 => 1
  | .TOUCH_3 => 1
  | _ => 0

/-- tp_tap_handle_state: the per-tick entry point.  Returns the updated
dispatch, the emissions of the tick, and the filter_motion flag. -/
def tp_tap_handle_state (lenmm : Int × Int → Int × Int → ℚ)
    (tp : TpDispatch) (time : Nat) : TpDispatch × List Emission × Nat :=
  if tp_tap_enabled tp = false then (tp, [], 0)
  else
    let r1 := if tp.is_clickpad = true ∧ tp.queued_button_press = true then
                tp_apply_event tp none TapEvent.BUTTON time
              else (tp, [])
    let r2 := tp_tap_touch_loop lenmm time r1.1 0 r1.1.touches.length
    (r2.1, r1.2 ++ r2.2, tp_filter_motion_of_state r2.1.tap.state)

/-- tp_tap_update_map: adopt want_map, but only in the IDLE state. -/
def tp_tap_update_map (tp : TpDispatch) : TpDispatch :=
  if tp.tap.state ≠ TpTapState.IDLE then tp
  else if tp.tap.map ≠ tp.tap.want_map then
    {tp with tap := {tp.tap with map := tp.tap.want_map}}
  else tp

/-- tp_tap_post_process_state. -/
def tp_tap_post_process_state (tp : TpDispatch) : TpDispatch :=
  tp_tap_update_map tp

/-- The body of the release loop of tp_release_all_taps for one finger
count i: release the button if its bit is set in buttons_pressed. -/
def tp_release_one (d : TapDispatch) (now i : Nat) : TapDispatch × List Emission :=
  if d.buttons_pressed &&& (1 <<< i) ≠ 0 then tp_tap_notify d now i false
  else (d, [])

/-- tp_release_all_taps: release every pressed synthetic button (the loop
for i = 1, 2, 3), then neutralize all current touches by making them palms. -/
def tp_release_all_taps (tp : TpDispatch) (now : Nat) : TpDispatch × List Emission :=
  let r1 := tp_release_one tp.tap now 1
  let r2 := tp_release_one r1.1 now 2
  let r3 := tp_release_one r2.1 now 3
  let touches := tp.touches.map (fun t =>
    if t.state = TouchState.NONE then t
    else if t.tap.is_palm then t
    else {t with tap := {t.tap with is_palm := true, state := TouchTapState.DEAD}})
  ({tp with
      tap := {r3.1 with state := TpTapState.IDLE, nfingers_down := 0},
      touches := touches},
   r1.2 ++ r2.2 ++ r3.2)

/-- tp_tap_enabled_update: store the new flags; if the effective enablement
changed, either neutralize in-flight touches (now enabled) or release
everything (now disabled). -/
def tp_tap_enabled_update (tp : TpDispatch) (suspended enabled : Bool)
    (time : Nat) : TpDispatch × List Emission :=
  let was := tp.tap.enabled && !tp.tap.suspended
  let tp1 := {tp with tap := {tp.tap with suspended := suspended, enabled := enabled}}
  if (tp1.tap.enabled && !tp1.tap.suspended) = was then (tp1, [])
  else if tp1.tap.enabled && !tp1.tap.suspended then
    let touches := tp1.touches.map (fun t =>
      if t.state = TouchState.NONE then t
      else {t with tap := {t.tap with is_palm := true, state := TouchTapState.DEAD}})
    ({tp1 with
        touches := touches,
        tap := {tp1.tap with state := TpTapState.IDLE, nfingers_down := 0}}, [])
  else
    tp_release_all_taps tp1 time

/-- tp_tap_suspend. -/
def tp_tap_suspend (tp : TpDispatch) (time : Nat) : TpDispatch × List Emission :=
  tp_tap_enabled_update tp true tp.tap.enabled time

/-- tp_tap_resume. -/
def tp_tap_resume (tp : TpDispatch) (time : Nat) : TpDispatch × List Emission :=
  tp_tap_enabled_update tp false tp.tap.enabled time

/-- tp_tap_config_set_map: store the raw enum value in want_map, try to
adopt it, and report success. -/
def tp_tap_config_set_map (tp : TpDispatch) (m : Nat) : TpDispatch × Nat :=
  (tp_tap_update_map {tp with tap := {tp.tap with want_map := m}},
   LIBINPUT_CONFIG_STATUS_SUCCESS)

/-- tp_tap_config_get_map: returns want_map, not the active map. -/
def tp_tap_config_get_map (tp : TpDispatch) : Nat :=
  tp.tap.want_map

/-- tp_tap_config_set_drag_enabled.  The C function stores the raw enum
argument into the boolean drag_enabled field declared in the touchpad header
(outside src); per the C conversion to a boolean field, any nonzero value
stores true. -/
def tp_tap_config_set_drag_enabled (tp : TpDispatch) (v : Nat) : TpDispatch × Nat :=
  ({tp with tap := {tp.tap with drag_enabled := v != 0}},
   LIBINPUT_CONFIG_STATUS_SUCCESS)

/-- tp_tap_config_set_draglock_enabled, same conversion as drag_enabled. -/
def tp_tap_config_set_draglock_enabled (tp : TpDispatch) (v : Nat) : TpDispatch × Nat :=
  ({tp with tap := {tp.tap with drag_lock_enabled := v != 0}},
   LIBINPUT_CONFIG_STATUS_SUCCESS)

/-- tp_tap_config_set_enabled: the FSM is enabled exactly when the argument
equals LIBINPUT_CONFIG_TAP_ENABLED; always reports success. -/
def tp_tap_config_set_enabled (tp : TpDispatch) (v : Nat) (time : Nat) :
    TpDispatch × List Emission × Nat :=
  let r := tp_tap_enabled_update tp tp.tap.suspended
             (v == LIBINPUT_CONFIG_TAP_ENABLED) time
  (r.1, r.2, LIBINPUT_CONFIG_STATUS_SUCCESS)

/-- The tap dispatch right after tp_init_tap on a freshly zeroed dispatch:
IDLE, LRM map, drag on, drag-lock off, no timer, nothing pressed. -/
def initTapState (enabled : Bool) : TapDispatch where
  state := TpTapState.IDLE
  enabled := enabled
  suspended := false
  map := LIBINPUT_CONFIG_TAP_MAP_LRM
  want_map := LIBINPUT_CONFIG_TAP_MAP_LRM
  drag_enabled := true
  drag_lock_enabled := false
  nfingers_down := 0
  buttons_pressed := 0
  saved_press_time := 0
  saved_release_time := 0
  timer := none

/-- A live touch context for trace runs (per-touch state TOUCH). -/
def liveTouchCtx : TouchTap where
  state := TouchTapState.TOUCH
  is_palm := false
  is_thumb := false
  initial := (0, 0)

/-- FSM events of spec scenario 2 (two-finger tap): begin at 0 and 10 ms,
end at 40 ms and 50 ms, all times in microseconds. -/
def twoFingerTapSteps : List TraceStep :=
  [⟨TapEvent.TOUCH, 0, some liveTouchCtx⟩,
   ⟨TapEvent.TOUCH, 10000, some liveTouchCtx⟩,
   ⟨TapEvent.RELEASE, 40000, some liveTouchCtx⟩,
   ⟨TapEvent.RELEASE, 50000, some liveTouchCtx⟩]

/-- FSM events of spec scenario 1 (single-finger tap): begin at 0, end at
50 ms, timeout fires at 230 ms. -/
def singleTapSteps : List TraceStep :=
  [⟨TapEvent.TOUCH, 0, some liveTouchCtx⟩,
   ⟨TapEvent.RELEASE, 50000, some liveTouchCtx⟩,
   ⟨TapEvent.TIMEOUT, 230000, none⟩]

/-- A short tap trace used to witness the pairing theorem. -/
def pairWitnessSteps : List TraceStep :=
  [⟨TapEvent.TOUCH, 0, some liveTouchCtx⟩,
   ⟨TapEvent.RELEASE, 1000, some liveTouchCtx⟩,
   ⟨TapEvent.TIMEOUT, 181000, none⟩]

/-- The states in which a synthetic button-1 press is outstanding. -/
def pressedState : TpTapState → Bool
  | .TAPPED => true
  | .DRAGGING => true
  | .DRAGGING_WAIT => true
  | .DRAGGING_OR_DOUBLETAP => true
  | .DRAGGING_OR_TAP => true
  | .DRAGGING_2 => true
  | _ => false

/-- The buttons_pressed bitmask determined by the pressed phase of a state:
2 = bit 1 set when a one-finger press is outstanding, else 0. -/
def bpOfState (s : TpTapState) : Nat := cond (pressedState s) 2 0

/-- Press/release alternation checker for finger count n: scanning the
emission stream with `op` = "a press for n is currently unmatched", a press
is legal only when op is false and a release only when op is true. -/
def balancedFrom (n : Nat) : Bool → List Emission → Bool
  | _, [] => true
  | op, e :: rest =>
      if e.nfingers = n then
        if e.pressed then !op && balancedFrom n true rest
        else op && balancedFrom n false rest
      else balancedFrom n op rest

/-- The open/closed press phase for finger count n after an emission list. -/
def openAfter (n : Nat) : Bool → List Emission → Bool
  | op, [] => op
  | op, e :: rest => openAfter n (if e.nfingers = n then e.pressed else op) rest

/-- The emissions of one FSM step alternate correctly, relative to the
button-1 phase b1 on entry and b2 on exit (buttons 2 and 3 are always
pressed and released within a single step). -/
def stepEmsOk (b1 b2 : Bool) (ems : List Emission) : Prop :=
  ∀ n, balancedFrom n (b1 && (n == 1)) ems = true ∧
       openAfter n (b1 && (n == 1)) ems = (b2 && (n == 1))

/-- Number of releases for finger count n in an emission list. -/
def releaseCount (ems : List Emission) (n : Nat) : Nat :=
  ems.countP (fun e => decide (e.nfingers = n) && !e.pressed)

/-- A sample dispatch used as concrete input for witnesses: mid-gesture
(state TOUCH), one live touch, LRM map. -/
def sampleTouch : Touch where
  state := TouchState.UPDATE
  dirty := true
  was_down := true
  point := (50, 50)
  palm_detected := false
  thumb_ignored := false
  thumb_ignored_for_tap := false
  palm_tap_is_palm := false
  tap := liveTouchCtx

/-- A sample full dispatch mid-gesture used as concrete witness input. -/
def sampleTp : TpDispatch where
  tap := {initTapState true with
            state := TpTapState.TOUCH, nfingers_down := 1,
            timer := some 180000}
  nfingers_down := 1
  old_nfingers_down := 1
  num_slots := 5
  semi_mt := false
  model_synaptics_serial := false
  is_clickpad := false
  queued_button_press := false
  touches := [sampleTouch]

/-- Claim C1, counterexample: on the two-finger tap event sequence
begin#1(0), begin#2(10 ms), end#1(40 ms), end#2(50 ms), the subsystem does
NOT emit press(RIGHT, 0) then release(RIGHT, 40 ms) as the claim states:
the press does not carry timestamp 0. -/
theorem c1_two_finger_tap_counterexample :
    ¬((runEvents (initTapState true) twoFingerTapSteps).2 =
        [⟨0, BTN_RIGHT, 2, true⟩, ⟨40000, BTN_RIGHT, 2, false⟩]) := by
  decide

/-- Claim C1, amended: on the two-finger tap sequence the subsystem emits
exactly two button events, both at the tick of the second end: a press of
the RIGHT button carrying timestamp 10 ms (the time of the second begin,
because each TOUCH event overwrites saved_press_time), then a release of
the RIGHT button carrying timestamp 40 ms; the state returns to IDLE. -/
theorem c1_two_finger_tap_emissions :
    (runEvents (initTapState true) (twoFingerTapSteps.take 3)).2 = [] ∧
    (runEvents (initTapState true) twoFingerTapSteps).2 =
      [⟨10000, BTN_RIGHT, 2, true⟩, ⟨40000, BTN_RIGHT, 2, false⟩] ∧
    (runEvents (initTapState true) twoFingerTapSteps).1.state = TpTapState.IDLE := by
  decide

/-- Claim C3, counterexample: tp_tap_config_set_map passed the undefined
enum value 99 reports success but stores 99 into want_map unchanged — it is
not clamped to the default (LRM) nor to any defined value. -/
theorem c3_set_map_counterexample :
    (tp_tap_config_set_map sampleTp 99).2 = LIBINPUT_CONFIG_STATUS_SUCCESS ∧
    (tp_tap_config_set_map sampleTp 99).1.tap.want_map = 99 ∧
    ¬(tp_tap_config_set_map sampleTp 99).1.tap.want_map = LIBINPUT_CONFIG_TAP_MAP_LRM ∧
    ¬(tp_tap_config_set_map sampleTp 99).1.tap.want_map = LIBINPUT_CONFIG_TAP_MAP_LMR := by
  decide

/-- Claim C3, amended: every configuration setter (enabled, map, drag
enabled, drag-lock enabled) returns the success status code, but values
outside the defined enum range are not clamped to defaults: set_map stores
the raw value into want_map, and the drag/drag-lock setters store the
truthiness of the raw value (any nonzero value enables). -/
theorem c3_setters_return_success_store_raw (tp : TpDispatch) (m v w u time : Nat) :
    (tp_tap_config_set_map tp m).2 = LIBINPUT_CONFIG_STATUS_SUCCESS ∧
    (tp_tap_config_set_map tp m).1.tap.want_map = m ∧
    (tp_tap_config_set_drag_enabled tp v).2 = LIBINPUT_CONFIG_STATUS_SUCCESS ∧
    (tp_tap_config_set_drag_enabled tp v).1.tap.drag_enabled = (v != 0) ∧
    (tp_tap_config_set_draglock_enabled tp w).2 = LIBINPUT_CONFIG_STATUS_SUCCESS ∧
    (tp_tap_config_set_draglock_enabled tp w).1.tap.drag_lock_enabled = (w != 0) ∧
    (tp_tap_config_set_enabled tp u time).2.2 = LIBINPUT_CONFIG_STATUS_SUCCESS := by
  refine ⟨rfl, ?_, rfl, rfl, rfl, rfl, rfl⟩
  unfold tp_tap_config_set_map tp_tap_update_map
  dsimp only
  split_ifs <;> rfl

/-- Claim C4: immediately after tp_tap_handle_event returns, if the global
state is IDLE or DEAD then the tap timer is not armed; the final
cancellation step covers every transition, including TOUCH_3_HOLD + TOUCH
which arms the timer while moving to DEAD. -/
theorem c4_idle_dead_timer_cleared (d : TapDispatch) (t : Option TouchTap)
    (e : TapEvent) (time : Nat) :
    (tp_tap_handle_event d t e time).1.state = TpTapState.IDLE ∨
      (tp_tap_handle_event d t e time).1.state = TpTapState.DEAD →
    (tp_tap_handle_event d t e time).1.timer = none := by
  unfold tp_tap_handle_event
  dsimp only
  split_ifs with h
  · intro _; rfl
  · intro hc; exact absurd hc h

/-- Witness for C4 at the transition the claim highlights: from
TOUCH_3_HOLD with an armed timer, a TOUCH event lands in DEAD with the
timer cancelled (even though the handler arms it on the way). -/
theorem c4_idle_dead_timer_cleared_witness :
    (tp_tap_handle_event
        {initTapState true with state := TpTapState.TOUCH_3_HOLD, timer := some 5}
        (some liveTouchCtx) TapEvent.TOUCH 7).1.timer = none :=
  c4_idle_dead_timer_cleared _ _ _ _ (Or.inr (by decide))

/-- Claim C5: the motion-threshold test returns true iff the distance in mm
from the initial point exceeds 1.3 mm, except that it returns false when
(a) the Synaptics serial model flag is set and either the current or the
previous finger count exceeds 2 and that same count exceeds the number of
hardware slots, or (b) the device is semi-MT and the finger count changed
this tick.  (The code tests the two disjunctions independently; this proves
that form equivalent to the per-count reading of the claim.) -/
theorem c5_motion_threshold_iff (lenmm : Int × Int → Int × Int → ℚ)
    (tp : TpDispatch) (t : Touch) :
    tp_tap_exceeds_motion_threshold lenmm tp t = true ↔
      (¬(tp.model_synaptics_serial = true ∧
          ((2 < tp.nfingers_down ∧ tp.num_slots < tp.nfingers_down) ∨
           (2 < tp.old_nfingers_down ∧ tp.num_slots < tp.old_nfingers_down))) ∧
       ¬(tp.semi_mt = true ∧ tp.nfingers_down ≠ tp.old_nfingers_down) ∧
       (13 : ℚ) / 10 < lenmm t.point t.tap.initial) := by
  unfold tp_tap_exceeds_motion_threshold
  split_ifs with h1 h2
  · constructor
    · intro hf; exact absurd hf (by simp)
    · rintro ⟨ha, -, -⟩
      obtain ⟨hm, hor1, hor2⟩ := h1
      exact absurd ⟨hm, by omega⟩ ha
  · constructor
    · intro hf; exact absurd hf (by simp)
    · rintro ⟨-, hb, -⟩; exact hb h2
  · simp only [decide_eq_true_eq]
    constructor
    · intro hd
      refine ⟨?_, h2, hd⟩
      rintro ⟨hm, hca⟩
      exact h1 ⟨hm, by omega⟩
    · rintro ⟨-, -, hd⟩; exact hd

/-- Claim C6: single-finger tap with defaults — begin at 0, end at 50 ms:
a press of LEFT carrying timestamp 0 is emitted at the end tick and the
timer is armed for 230 ms; when it fires, a release of LEFT carrying
timestamp 50 ms is emitted, the state returns to IDLE (timer clear). -/
theorem c6_single_finger_tap :
    (runEvents (initTapState true) (singleTapSteps.take 2)).2 =
        [⟨0, BTN_LEFT, 1, true⟩] ∧
    (runEvents (initTapState true) (singleTapSteps.take 2)).1.timer = some 230000 ∧
    (runEvents (initTapState true) singleTapSteps).2 =
        [⟨0, BTN_LEFT, 1, true⟩, ⟨50000, BTN_LEFT, 1, false⟩] ∧
    (runEvents (initTapState true) singleTapSteps).1.state = TpTapState.IDLE ∧
    (runEvents (initTapState true) singleTapSteps).1.timer = none := by
  decide

/-- Claim C9: the map getter returns the pending want_map value — set_map
followed by get_map round-trips unconditionally — while the active map
stays unchanged whenever the state is not IDLE. -/
theorem c9_set_then_get_map (tp : TpDispatch) (m : Nat) :
    tp_tap_config_get_map (tp_tap_config_set_map tp m).1 = m ∧
    (tp.tap.state ≠ TpTapState.IDLE →
      (tp_tap_config_set_map tp m).1.tap.map = tp.tap.map) := by
  unfold tp_tap_config_get_map tp_tap_config_set_map tp_tap_update_map
  constructor
  · dsimp only
    split_ifs <;> rfl
  · intro h
    dsimp only
    rw [if_pos h]

/-- Witness for C9: on the mid-gesture sample dispatch (state TOUCH),
setting the map to LMR makes the getter return LMR while the active map is
still LRM. -/
theorem c9_set_then_get_map_witness :
    tp_tap_config_get_map (tp_tap_config_set_map sampleTp 1).1 = 1 ∧
    (tp_tap_config_set_map sampleTp 1).1.tap.map = LIBINPUT_CONFIG_TAP_MAP_LRM := by
  refine ⟨(c9_set_then_get_map sampleTp 1).1, ?_⟩
  have h := (c9_set_then_get_map sampleTp 1).2 (by decide)
  rw [h]
  rfl


set_option maxHeartbeats 1000000

/-- The buttons_pressed value determined by the pressed-phase of a state. -/

theorem stepEmsOk_nil (b : Bool) : stepEmsOk b b [] := by
  intro n
  exact ⟨rfl, rfl⟩

theorem stepEmsOk_press1 (t b : Nat) : stepEmsOk false true [⟨t, b, 1, true⟩] := by
  intro n
  rcases eq_or_ne n 1 with h | h
  · subst h; simp [balancedFrom, openAfter]
  · simp [balancedFrom, openAfter, beq_iff_eq, h, Ne.symm h]

theorem stepEmsOk_rel1 (t b : Nat) : stepEmsOk true false [⟨t, b, 1, false⟩] := by
  intro n
  rcases eq_or_ne n 1 with h | h
  · subst h; simp [balancedFrom, openAfter]
  · simp [balancedFrom, openAfter, beq_iff_eq, h, Ne.symm h]

theorem stepEmsOk_pair (k t1 t2 b1 b2 : Nat) :
    stepEmsOk false false [⟨t1, b1, k, true⟩, ⟨t2, b2, k, false⟩] := by
  intro n
  rcases eq_or_ne n k with h | h
  · subst h
    rcases eq_or_ne n 1 with h1 | h1 <;>
      simp [balancedFrom, openAfter, beq_iff_eq, h1]
  · simp [balancedFrom, openAfter, beq_iff_eq, h, Ne.symm h]

theorem stepEmsOk_relpress1 (t1 t2 b1 b2 : Nat) :
    stepEmsOk true true [⟨t1, b1, 1, false⟩, ⟨t2, b2, 1, true⟩] := by
  intro n
  rcases eq_or_ne n 1 with h | h
  · subst h; simp [balancedFrom, openAfter]
  · simp [balancedFrom, openAfter, beq_iff_eq, h, Ne.symm h]

theorem pairing_idle (d : TapDispatch) (t : Option TouchTap) (e : TapEvent)
    (time : Nat) (hs : d.state = TpTapState.IDLE) (h : d.buttons_pressed = 0) :
    ((tp_tap_idle_handle_event d t e time).1.buttons_pressed =
        bpOfState (tp_tap_idle_handle_event d t e time).1.state) ∧
    stepEmsOk false (pressedState (tp_tap_idle_handle_event d t e time).1.state)
      (tp_tap_idle_handle_event d t e time).2.2 := by
  obtain ⟨s, en, su, mp, wm, de, dl, nf, bp, spt, srt, tm⟩ := d
  simp only at hs h
  subst hs
  subst h
  rcases t with _ | tt <;> cases e <;>
    simp only [tp_tap_idle_handle_event, tp_tap_notify, tp_tap_set_timer, tp_tap_set_drag_timer,
      tp_tap_clear_timer, tp_tap_move_to_dead, touch_mark_dead, Option.map,
      Nat.reduceLT, Bool.false_eq_true, eq_self_iff_true, if_true, if_false,
      reduceIte] <;>
    (try split_ifs) <;>
    first
      | exact ⟨rfl, stepEmsOk_nil _⟩
      | exact ⟨rfl, stepEmsOk_press1 _ _⟩
      | exact ⟨rfl, stepEmsOk_rel1 _ _⟩
      | exact ⟨rfl, stepEmsOk_pair _ _ _ _ _⟩
      | exact ⟨rfl, stepEmsOk_relpress1 _ _ _ _⟩

theorem pairing_touch (d : TapDispatch) (t : Option TouchTap) (e : TapEvent)
    (time : Nat) (hs : d.state = TpTapState.TOUCH) (h : d.buttons_pressed = 0) :
    ((tp_tap_touch_handle_event d t e time).1.buttons_pressed =
        bpOfState (tp_tap_touch_handle_event d t e time).1.state) ∧
    stepEmsOk false (pressedState (tp_tap_touch_handle_event d t e time).1.state)
      (tp_tap_touch_handle_event d t e time).2.2 := by
  obtain ⟨s, en, su, mp, wm, de, dl, nf, bp, spt, srt, tm⟩ := d
  simp only at hs h
  subst hs
  subst h
  rcases t with _ | tt <;> cases e <;>
    simp only [tp_tap_touch_handle_event, tp_tap_notify, tp_tap_set_timer, tp_tap_set_drag_timer,
      tp_tap_clear_timer, tp_tap_move_to_dead, touch_mark_dead, Option.map,
      Nat.reduceLT, Bool.false_eq_true, eq_self_iff_true, if_true, if_false,
      reduceIte] <;>
    (try split_ifs) <;>
    first
      | exact ⟨rfl, stepEmsOk_nil _⟩
      | exact ⟨rfl, stepEmsOk_press1 _ _⟩
      | exact ⟨rfl, stepEmsOk_rel1 _ _⟩
      | exact ⟨rfl, stepEmsOk_pair _ _ _ _ _⟩
      | exact ⟨rfl, stepEmsOk_relpress1 _ _ _ _⟩

theorem pairing_hold (d : TapDispatch) (t : Option TouchTap) (e : TapEvent)
    (time : Nat) (hs : d.state = TpTapState.HOLD) (h : d.buttons_pressed = 0) :
    ((tp_tap_hold_handle_event d t e time).1.buttons_pressed =
        bpOfState (tp_tap_hold_handle_event d t e time).1.state) ∧
    stepEmsOk false (pressedState (tp_tap_hold_handle_event d t e time).1.state)
      (tp_tap_hold_handle_event d t e time).2.2 := by
  obtain ⟨s, en, su, mp, wm, de, dl, nf, bp, spt, srt, tm⟩ := d
  simp only at hs h
  subst hs
  subst h
  rcases t with _ | tt <;> cases e <;>
    simp only [tp_tap_hold_handle_event, tp_tap_notify, tp_tap_set_timer, tp_tap_set_drag_timer,
      tp_tap_clear_timer, tp_tap_move_to_dead, touch_mark_dead, Option.map,
      Nat.reduceLT, Bool.false_eq_true, eq_self_iff_true, if_true, if_false,
      reduceIte] <;>
    (try split_ifs) <;>
    first
      | exact ⟨rfl, stepEmsOk_nil _⟩
      | exact ⟨rfl, stepEmsOk_press1 _ _⟩
      | exact ⟨rfl, stepEmsOk_rel1 _ _⟩
      | exact ⟨rfl, stepEmsOk_pair _ _ _ _ _⟩
      | exact ⟨rfl, stepEmsOk_relpress1 _ _ _ _⟩

theorem pairing_tapped (d : TapDispatch) (t : Option TouchTap) (e : TapEvent)
    (time : Nat) (hs : d.state = TpTapState.TAPPED) (h : d.buttons_pressed = 2) :
    ((tp_tap_tapped_handle_event d t e time).1.buttons_pressed =
        bpOfState (tp_tap_tapped_handle_event d t e time).1.state) ∧
    stepEmsOk true (pressedState (tp_tap_tapped_handle_event d t e time).1.state)
      (tp_tap_tapped_handle_event d t e time).2.2 := by
  obtain ⟨s, en, su, mp, wm, de, dl, nf, bp, spt, srt, tm⟩ := d
  simp only at hs h
  subst hs
  subst h
  rcases t with _ | tt <;> cases e <;>
    simp only [tp_tap_tapped_handle_event, tp_tap_notify, tp_tap_set_timer, tp_tap_set_drag_timer,
      tp_tap_clear_timer, tp_tap_move_to_dead, touch_mark_dead, Option.map,
      Nat.reduceLT, Bool.false_eq_true, eq_self_iff_true, if_true, if_false,
      reduceIte] <;>
    (try split_ifs) <;>
    first
      | exact ⟨rfl, stepEmsOk_nil _⟩
      | exact ⟨rfl, stepEmsOk_press1 _ _⟩
      | exact ⟨rfl, stepEmsOk_rel1 _ _⟩
      | exact ⟨rfl, stepEmsOk_pair _ _ _ _ _⟩
      | exact ⟨rfl, stepEmsOk_relpress1 _ _ _ _⟩

theorem pairing_touch2 (d : TapDispatch) (t : Option TouchTap) (e : TapEvent)
    (time : Nat) (hs : d.state = TpTapState.TOUCH_2) (h : d.buttons_pressed = 0) :
    ((tp_tap_touch2_handle_event d t e time).1.buttons_pressed =
        bpOfState (tp_tap_touch2_handle_event d t e time).1.state) ∧
    stepEmsOk false (pressedState (tp_tap_touch2_handle_event d t e time).1.state)
      (tp_tap_touch2_handle_event d t e time).2.2 := by
  obtain ⟨s, en, su, mp, wm, de, dl, nf, bp, spt, srt, tm⟩ := d
  simp only at hs h
  subst hs
  subst h
  rcases t with _ | tt <;> cases e <;>
    simp only [tp_tap_touch2_handle_event, tp_tap_notify, tp_tap_set_timer, tp_tap_set_drag_timer,
      tp_tap_clear_timer, tp_tap_move_to_dead, touch_mark_dead, Option.map,
      Nat.reduceLT, Bool.false_eq_true, eq_self_iff_true, if_true, if_false,
      reduceIte] <;>
    (try split_ifs) <;>
    first
      | exact ⟨rfl, stepEmsOk_nil _⟩
      | exact ⟨rfl, stepEmsOk_press1 _ _⟩
      | exact ⟨rfl, stepEmsOk_rel1 _ _⟩
      | exact ⟨rfl, stepEmsOk_pair _ _ _ _ _⟩
      | exact ⟨rfl, stepEmsOk_relpress1 _ _ _ _⟩

theorem pairing_touch2_hold (d : TapDispatch) (t : Option TouchTap) (e : TapEvent)
    (time : Nat) (hs : d.state = TpTapState.TOUCH_2_HOLD) (h : d.buttons_pressed = 0) :
    ((tp_tap_touch2_hold_handle_event d t e time).1.buttons_pressed =
        bpOfState (tp_tap_touch2_hold_handle_event d t e time).1.state) ∧
    stepEmsOk false (pressedState (tp_tap_touch2_hold_handle_event d t e time).1.state)
      (tp_tap_touch2_hold_handle_event d t e time).2.2 := by
  obtain ⟨s, en, su, mp, wm, de, dl, nf, bp, spt, srt, tm⟩ := d
  simp only at hs h
  subst hs
  subst h
  rcases t with _ | tt <;> cases e <;>
    simp only [tp_tap_touch2_hold_handle_event, tp_tap_notify, tp_tap_set_timer, tp_tap_set_drag_timer,
      tp_tap_clear_timer, tp_tap_move_to_dead, touch_mark_dead, Option.map,
      Nat.reduceLT, Bool.false_eq_true, eq_self_iff_true, if_true, if_false,
      reduceIte] <;>
    (try split_ifs) <;>
    first
      | exact ⟨rfl, stepEmsOk_nil _⟩
      | exact ⟨rfl, stepEmsOk_press1 _ _⟩
      | exact ⟨rfl, stepEmsOk_rel1 _ _⟩
      | exact ⟨rfl, stepEmsOk_pair _ _ _ _ _⟩
      | exact ⟨rfl, stepEmsOk_relpress1 _ _ _ _⟩

theorem pairing_touch2_release (d : TapDispatch) (t : Option TouchTap) (e : TapEvent)
    (time : Nat) (hs : d.state = TpTapState.TOUCH_2_RELEASE) (h : d.buttons_pressed = 0) :
    ((tp_tap_touch2_release_handle_event d t e time).1.buttons_pressed =
        bpOfState (tp_tap_touch2_release_handle_event d t e time).1.state) ∧
    stepEmsOk false (pressedState (tp_tap_touch2_release_handle_event d t e time).1.state)
      (tp_tap_touch2_release_handle_event d t e time).2.2 := by
  obtain ⟨s, en, su, mp, wm, de, dl, nf, bp, spt, srt, tm⟩ := d
  simp only at hs h
  subst hs
  subst h
  rcases t with _ | tt <;> cases e <;>
    simp only [tp_tap_touch2_release_handle_event, tp_tap_notify, tp_tap_set_timer, tp_tap_set_drag_timer,
      tp_tap_clear_timer, tp_tap_move_to_dead, touch_mark_dead, Option.map,
      Nat.reduceLT, Bool.false_eq_true, eq_self_iff_true, if_true, if_false,
      reduceIte] <;>
    (try split_ifs) <;>
    first
      | exact ⟨rfl, stepEmsOk_nil _⟩
      | exact ⟨rfl, stepEmsOk_press1 _ _⟩
      | exact ⟨rfl, stepEmsOk_rel1 _ _⟩
      | exact ⟨rfl, stepEmsOk_pair _ _ _ _ _⟩
      | exact ⟨rfl, stepEmsOk_relpress1 _ _ _ _⟩

theorem pairing_touch3 (d : TapDispatch) (t : Option TouchTap) (e : TapEvent)
    (time : Nat) (hs : d.state = TpTapState.TOUCH_3) (h : d.buttons_pressed = 0) :
    ((tp_tap_touch3_handle_event d t e time).1.buttons_pressed =
        bpOfState (tp_tap_touch3_handle_event d t e time).1.state) ∧
    stepEmsOk false (pressedState (tp_tap_touch3_handle_event d t e time).1.state)
      (tp_tap_touch3_handle_event d t e time).2.2 := by
  obtain ⟨s, en, su, mp, wm, de, dl, nf, bp, spt, srt, tm⟩ := d
  simp only at hs h
  subst hs
  subst h
  rcases t with _ | tt <;> cases e <;>
    simp only [tp_tap_touch3_handle_event, tp_tap_notify, tp_tap_set_timer, tp_tap_set_drag_timer,
      tp_tap_clear_timer, tp_tap_move_to_dead, touch_mark_dead, Option.map,
      Nat.reduceLT, Bool.false_eq_true, eq_self_iff_true, if_true, if_false,
      reduceIte] <;>
    (try split_ifs) <;>
    first
      | exact ⟨rfl, stepEmsOk_nil _⟩
      | exact ⟨rfl, stepEmsOk_press1 _ _⟩
      | exact ⟨rfl, stepEmsOk_rel1 _ _⟩
      | exact ⟨rfl, stepEmsOk_pair _ _ _ _ _⟩
      | exact ⟨rfl, stepEmsOk_relpress1 _ _ _ _⟩

theorem pairing_touch3_hold (d : TapDispatch) (t : Option TouchTap) (e : TapEvent)
    (time : Nat) (hs : d.state = TpTapState.TOUCH_3_HOLD) (h : d.buttons_pressed = 0) :
    ((tp_tap_touch3_hold_handle_event d t e time).1.buttons_pressed =
        bpOfState (tp_tap_touch3_hold_handle_event d t e time).1.state) ∧
    stepEmsOk false (pressedState (tp_tap_touch3_hold_handle_event d t e time).1.state)
      (tp_tap_touch3_hold_handle_event d t e time).2.2 := by
  obtain ⟨s, en, su, mp, wm, de, dl, nf, bp, spt, srt, tm⟩ := d
  simp only at hs h
  subst hs
  subst h
  rcases t with _ | tt <;> cases e <;>
    simp only [tp_tap_touch3_hold_handle_event, tp_tap_notify, tp_tap_set_timer, tp_tap_set_drag_timer,
      tp_tap_clear_timer, tp_tap_move_to_dead, touch_mark_dead, Option.map,
      Nat.reduceLT, Bool.false_eq_true, eq_self_iff_true, if_true, if_false,
      reduceIte] <;>
    (try split_ifs) <;>
    first
      | exact ⟨rfl, stepEmsOk_nil _⟩
      | exact ⟨rfl, stepEmsOk_press1 _ _⟩
      | exact ⟨rfl, stepEmsOk_rel1 _ _⟩
      | exact ⟨rfl, stepEmsOk_pair _ _ _ _ _⟩
      | exact ⟨rfl, stepEmsOk_relpress1 _ _ _ _⟩

theorem pairing_dragging_or_doubletap (d : TapDispatch) (t : Option TouchTap) (e : TapEvent)
    (time : Nat) (hs : d.state = TpTapState.DRAGGING_OR_DOUBLETAP) (h : d.buttons_pressed = 2) :
    ((tp_tap_dragging_or_doubletap_handle_event d t e time).1.buttons_pressed =
        bpOfState (tp_tap_dragging_or_doubletap_handle_event d t e time).1.state) ∧
    stepEmsOk true (pressedState (tp_tap_dragging_or_doubletap_handle_event d t e time).1.state)
      (tp_tap_dragging_or_doubletap_handle_event d t e time).2.2 := by
  obtain ⟨s, en, su, mp, wm, de, dl, nf, bp, spt, srt, tm⟩ := d
  simp only at hs h
  subst hs
  subst h
  rcases t with _ | tt <;> cases e <;>
    simp only [tp_tap_dragging_or_doubletap_handle_event, tp_tap_notify, tp_tap_set_timer, tp_tap_set_drag_timer,
      tp_tap_clear_timer, tp_tap_move_to_dead, touch_mark_dead, Option.map,
      Nat.reduceLT, Bool.false_eq_true, eq_self_iff_true, if_true, if_false,
      reduceIte] <;>
    (try split_ifs) <;>
    first
      | exact ⟨rfl, stepEmsOk_nil _⟩
      | exact ⟨rfl, stepEmsOk_press1 _ _⟩
      | exact ⟨rfl, stepEmsOk_rel1 _ _⟩
      | exact ⟨rfl, stepEmsOk_pair _ _ _ _ _⟩
      | exact ⟨rfl, stepEmsOk_relpress1 _ _ _ _⟩

theorem pairing_dragging (d : TapDispatch) (t : Option TouchTap) (e : TapEvent)
    (time : Nat) (hs : d.state = TpTapState.DRAGGING) (h : d.buttons_pressed = 2) :
    ((tp_tap_dragging_handle_event d t e time).1.buttons_pressed =
        bpOfState (tp_tap_dragging_handle_event d t e time).1.state) ∧
    stepEmsOk true (pressedState (tp_tap_dragging_handle_event d t e time).1.state)
      (tp_tap_dragging_handle_event d t e time).2.2 := by
  obtain ⟨s, en, su, mp, wm, de, dl, nf, bp, spt, srt, tm⟩ := d
  simp only at hs h
  subst hs
  subst h
  rcases t with _ | tt <;> cases e <;>
    simp only [tp_tap_dragging_handle_event, tp_tap_notify, tp_tap_set_timer, tp_tap_set_drag_timer,
      tp_tap_clear_timer, tp_tap_move_to_dead, touch_mark_dead, Option.map,
      Nat.reduceLT, Bool.false_eq_true, eq_self_iff_true, if_true, if_false,
      reduceIte] <;>
    (try split_ifs) <;>
    first
      | exact ⟨rfl, stepEmsOk_nil _⟩
      | exact ⟨rfl, stepEmsOk_press1 _ _⟩
      | exact ⟨rfl, stepEmsOk_rel1 _ _⟩
      | exact ⟨rfl, stepEmsOk_pair _ _ _ _ _⟩
      | exact ⟨rfl, stepEmsOk_relpress1 _ _ _ _⟩

theorem pairing_dragging_wait (d : TapDispatch) (t : Option TouchTap) (e : TapEvent)
    (time : Nat) (hs : d.state = TpTapState.DRAGGING_WAIT) (h : d.buttons_pressed = 2) :
    ((tp_tap_dragging_wait_handle_event d t e time).1.buttons_pressed =
        bpOfState (tp_tap_dragging_wait_handle_event d t e time).1.state) ∧
    stepEmsOk true (pressedState (tp_tap_dragging_wait_handle_event d t e time).1.state)
      (tp_tap_dragging_wait_handle_event d t e time).2.2 := by
  obtain ⟨s, en, su, mp, wm, de, dl, nf, bp, spt, srt, tm⟩ := d
  simp only at hs h
  subst hs
  subst h
  rcases t with _ | tt <;> cases e <;>
    simp only [tp_tap_dragging_wait_handle_event, tp_tap_notify, tp_tap_set_timer, tp_tap_set_drag_timer,
      tp_tap_clear_timer, tp_tap_move_to_dead, touch_mark_dead, Option.map,
      Nat.reduceLT, Bool.false_eq_true, eq_self_iff_true, if_true, if_false,
      reduceIte] <;>
    (try split_ifs) <;>
    first
      | exact ⟨rfl, stepEmsOk_nil _⟩
      | exact ⟨rfl, stepEmsOk_press1 _ _⟩
      | exact ⟨rfl, stepEmsOk_rel1 _ _⟩
      | exact ⟨rfl, stepEmsOk_pair _ _ _ _ _⟩
      | exact ⟨rfl, stepEmsOk_relpress1 _ _ _ _⟩

theorem pairing_dragging_tap (d : TapDispatch) (t : Option TouchTap) (e : TapEvent)
    (time : Nat) (hs : d.state = TpTapState.DRAGGING_OR_TAP) (h : d.buttons_pressed = 2) :
    ((tp_tap_dragging_tap_handle_event d t e time).1.buttons_pressed =
        bpOfState (tp_tap_dragging_tap_handle_event d t e time).1.state) ∧
    stepEmsOk true (pressedState (tp_tap_dragging_tap_handle_event d t e time).1.state)
      (tp_tap_dragging_tap_handle_event d t e time).2.2 := by
  obtain ⟨s, en, su, mp, wm, de, dl, nf, bp, spt, srt, tm⟩ := d
  simp only at hs h
  subst hs
  subst h
  rcases t with _ | tt <;> cases e <;>
    simp only [tp_tap_dragging_tap_handle_event, tp_tap_notify, tp_tap_set_timer, tp_tap_set_drag_timer,
      tp_tap_clear_timer, tp_tap_move_to_dead, touch_mark_dead, Option.map,
      Nat.reduceLT, Bool.false_eq_true, eq_self_iff_true, if_true, if_false,
      reduceIte] <;>
    (try split_ifs) <;>
    first
      | exact ⟨rfl, stepEmsOk_nil _⟩
      | exact ⟨rfl, stepEmsOk_press1 _ _⟩
      | exact ⟨rfl, stepEmsOk_rel1 _ _⟩
      | exact ⟨rfl, stepEmsOk_pair _ _ _ _ _⟩
      | exact ⟨rfl, stepEmsOk_relpress1 _ _ _ _⟩

theorem pairing_dragging2 (d : TapDispatch) (t : Option TouchTap) (e : TapEvent)
    (time : Nat) (hs : d.state = TpTapState.DRAGGING_2) (h : d.buttons_pressed = 2) :
    ((tp_tap_dragging2_handle_event d t e time).1.buttons_pressed =
        bpOfState (tp_tap_dragging2_handle_event d t e time).1.state) ∧
    stepEmsOk true (pressedState (tp_tap_dragging2_handle_event d t e time).1.state)
      (tp_tap_dragging2_handle_event d t e time).2.2 := by
  obtain ⟨s, en, su, mp, wm, de, dl, nf, bp, spt, srt, tm⟩ := d
  simp only at hs h
  subst hs
  subst h
  rcases t with _ | tt <;> cases e <;>
    simp only [tp_tap_dragging2_handle_event, tp_tap_notify, tp_tap_set_timer, tp_tap_set_drag_timer,
      tp_tap_clear_timer, tp_tap_move_to_dead, touch_mark_dead, Option.map,
      Nat.reduceLT, Bool.false_eq_true, eq_self_iff_true, if_true, if_false,
      reduceIte] <;>
    (try split_ifs) <;>
    first
      | exact ⟨rfl, stepEmsOk_nil _⟩
      | exact ⟨rfl, stepEmsOk_press1 _ _⟩
      | exact ⟨rfl, stepEmsOk_rel1 _ _⟩
      | exact ⟨rfl, stepEmsOk_pair _ _ _ _ _⟩
      | exact ⟨rfl, stepEmsOk_relpress1 _ _ _ _⟩

theorem pairing_dead (d : TapDispatch) (t : Option TouchTap) (e : TapEvent)
    (time : Nat) (hs : d.state = TpTapState.DEAD) (h : d.buttons_pressed = 0) :
    ((tp_tap_dead_handle_event d t e time).1.buttons_pressed =
        bpOfState (tp_tap_dead_handle_event d t e time).1.state) ∧
    stepEmsOk false (pressedState (tp_tap_dead_handle_event d t e time).1.state)
      (tp_tap_dead_handle_event d t e time).2.2 := by
  obtain ⟨s, en, su, mp, wm, de, dl, nf, bp, spt, srt, tm⟩ := d
  simp only at hs h
  subst hs
  subst h
  rcases t with _ | tt <;> cases e <;>
    simp only [tp_tap_dead_handle_event, tp_tap_notify, tp_tap_set_timer, tp_tap_set_drag_timer,
      tp_tap_clear_timer, tp_tap_move_to_dead, touch_mark_dead, Option.map,
      Nat.reduceLT, Bool.false_eq_true, eq_self_iff_true, if_true, if_false,
      reduceIte] <;>
    (try split_ifs) <;>
    first
      | exact ⟨rfl, stepEmsOk_nil _⟩
      | exact ⟨rfl, stepEmsOk_press1 _ _⟩
      | exact ⟨rfl, stepEmsOk_rel1 _ _⟩
      | exact ⟨rfl, stepEmsOk_pair _ _ _ _ _⟩
      | exact ⟨rfl, stepEmsOk_relpress1 _ _ _ _⟩

theorem handle_event_core_pairing (d : TapDispatch) (t : Option TouchTap)
    (e : TapEvent) (time : Nat) (h : d.buttons_pressed = bpOfState d.state) :
    ((tp_tap_handle_event_core d t e time).1.buttons_pressed =
        bpOfState (tp_tap_handle_event_core d t e time).1.state) ∧
    stepEmsOk (pressedState d.state)
      (pressedState (tp_tap_handle_event_core d t e time).1.state)
      (tp_tap_handle_event_core d t e time).2.2 := by
  cases hs : d.state
  case IDLE =>
    rw [hs] at h
    simp only [tp_tap_handle_event_core, hs, pressedState]
    exact pairing_idle d t e time hs h
  case TOUCH =>
    rw [hs] at h
    simp only [tp_tap_handle_event_core, hs, pressedState]
    exact pairing_touch d t e time hs h
  case HOLD =>
    rw [hs] at h
    simp only [tp_tap_handle_event_core, hs, pressedState]
    exact pairing_hold d t e time hs h
  case TAPPED =>
    rw [hs] at h
    simp only [tp_tap_handle_event_core, hs, pressedState]
    exact pairing_tapped d t e time hs h
  case TOUCH_2 =>
    rw [hs] at h
    simp only [tp_tap_handle_event_core, hs, pressedState]
    exact pairing_touch2 d t e time hs h
  case TOUCH_2_HOLD =>
    rw [hs] at h
    simp only [tp_tap_handle_event_core, hs, pressedState]
    exact pairing_touch2_hold d t e time hs h
  case TOUCH_2_RELEASE =>
    rw [hs] at h
    simp only [tp_tap_handle_event_core, hs, pressedState]
    exact pairing_touch2_release d t e time hs h
  case TOUCH_3 =>
    rw [hs] at h
    simp only [tp_tap_handle_event_core, hs, pressedState]
    exact pairing_touch3 d t e time hs h
  case TOUCH_3_HOLD =>
    rw [hs] at h
    simp only [tp_tap_handle_event_core, hs, pressedState]
    exact pairing_touch3_hold d t e time hs h
  case DRAGGING_OR_DOUBLETAP =>
    rw [hs] at h
    simp only [tp_tap_handle_event_core, hs, pressedState]
    exact pairing_dragging_or_doubletap d t e time hs h
  case DRAGGING =>
    rw [hs] at h
    simp only [tp_tap_handle_event_core, hs, pressedState]
    exact pairing_dragging d t e time hs h
  case DRAGGING_WAIT =>
    rw [hs] at h
    simp only [tp_tap_handle_event_core, hs, pressedState]
    exact pairing_dragging_wait d t e time hs h
  case DRAGGING_OR_TAP =>
    rw [hs] at h
    simp only [tp_tap_handle_event_core, hs, pressedState]
    exact pairing_dragging_tap d t e time hs h
  case DRAGGING_2 =>
    rw [hs] at h
    simp only [tp_tap_handle_event_core, hs, pressedState]
    exact pairing_dragging2 d t e time hs h
  case DEAD =>
    rw [hs] at h
    simp only [tp_tap_handle_event_core, hs, pressedState]
    exact pairing_dead d t e time hs h

/-- The final IDLE/DEAD timer cancellation of tp_tap_handle_event changes
neither the state, the bitmask, nor the emissions, so pairing lifts. -/
theorem handle_event_pairing (d : TapDispatch) (t : Option TouchTap)
    (e : TapEvent) (time : Nat) (h : d.buttons_pressed = bpOfState d.state) :
    ((tp_tap_handle_event d t e time).1.buttons_pressed =
        bpOfState (tp_tap_handle_event d t e time).1.state) ∧
    stepEmsOk (pressedState d.state)
      (pressedState (tp_tap_handle_event d t e time).1.state)
      (tp_tap_handle_event d t e time).2.2 := by
  have hc := handle_event_core_pairing d t e time h
  unfold tp_tap_handle_event
  dsimp only
  split_ifs <;> exact hc

theorem balancedFrom_append (n : Nat) (s : Bool) (a b : List Emission) :
    balancedFrom n s (a ++ b) =
      (balancedFrom n s a && balancedFrom n (openAfter n s a) b) := by
  induction a generalizing s with
  | nil => simp [balancedFrom, openAfter]
  | cons e rest ih =>
      by_cases h1 : e.nfingers = n
      · cases hp : e.pressed <;>
          simp [List.cons_append, balancedFrom, openAfter, h1, hp, ih, Bool.and_assoc,
            List.append_eq]
      · simp [List.cons_append, balancedFrom, openAfter, h1, ih, Bool.and_assoc,
          List.append_eq]

theorem openAfter_append (n : Nat) (s : Bool) (a b : List Emission) :
    openAfter n s (a ++ b) = openAfter n (openAfter n s a) b := by
  induction a generalizing s with
  | nil => simp [openAfter]
  | cons e rest ih => simp [List.cons_append, openAfter, ih, List.append_eq]

/-- Trace-level pairing: running any event list keeps the bitmask in step
with the state, every per-n emission stream alternates press/release
correctly, and the open phase on exit matches the final state. -/
theorem runEvents_pairing (steps : List TraceStep) (d : TapDispatch)
    (h : d.buttons_pressed = bpOfState d.state) :
    ((runEvents d steps).1.buttons_pressed = bpOfState (runEvents d steps).1.state) ∧
    ∀ n, balancedFrom n (pressedState d.state && (n == 1)) (runEvents d steps).2 = true ∧
      openAfter n (pressedState d.state && (n == 1)) (runEvents d steps).2 =
        (pressedState (runEvents d steps).1.state && (n == 1)) := by
  induction steps generalizing d with
  | nil => exact ⟨h, fun n => ⟨rfl, rfl⟩⟩
  | cons s rest ih =>
      have hstep := handle_event_pairing d s.touch s.event s.time h
      have hrest := ih (tp_tap_handle_event d s.touch s.event s.time).1 hstep.1
      simp only [runEvents]
      refine ⟨hrest.1, fun n => ?_⟩
      have h1 := hstep.2 n
      have h2 := hrest.2 n
      constructor
      · rw [balancedFrom_append, h1.1, h1.2, h2.1]
        rfl
      · rw [openAfter_append, h1.2, h2.2]

/-- Claim C2: starting from IDLE with no synthetic button pressed, for every
FSM event sequence the emission stream alternates press and release per
finger count (never a release without an unmatched press, never two
unmatched presses), and whenever the run ends back in IDLE every press has
been released (prefixes of a run are runs, so this covers every return to
IDLE along the way); matching button codes follow since press and release
for the same finger count use the same map lookup. -/
theorem c2_press_release_pairing (d0 : TapDispatch) (steps : List TraceStep)
    (h0 : d0.state = TpTapState.IDLE) (hb : d0.buttons_pressed = 0) :
    (∀ n, balancedFrom n false (runEvents d0 steps).2 = true) ∧
    ((runEvents d0 steps).1.state = TpTapState.IDLE →
      (runEvents d0 steps).1.buttons_pressed = 0 ∧
      ∀ n, openAfter n false (runEvents d0 steps).2 = false) := by
  have h : d0.buttons_pressed = bpOfState d0.state := by rw [hb, h0]; rfl
  have hr := runEvents_pairing steps d0 h
  constructor
  · intro n
    have hbal := (hr.2 n).1
    rw [h0] at hbal
    simpa [pressedState] using hbal
  · intro hidle
    constructor
    · rw [hr.1, hidle]
      rfl
    · intro n
      have hop := (hr.2 n).2
      rw [h0, hidle] at hop
      simpa [pressedState] using hop

/-- Witness for C2 on a concrete single-finger tap trace: the stream is
balanced for finger count 1 and closed again when the run ends in IDLE. -/
theorem c2_press_release_pairing_witness :
    balancedFrom 1 false (runEvents (initTapState true) pairWitnessSteps).2 = true ∧
    (runEvents (initTapState true) pairWitnessSteps).1.buttons_pressed = 0 ∧
    openAfter 1 false (runEvents (initTapState true) pairWitnessSteps).2 = false := by
  have h := c2_press_release_pairing (initTapState true) pairWitnessSteps rfl rfl
  have hidle : (runEvents (initTapState true) pairWitnessSteps).1.state =
      TpTapState.IDLE := by decide
  exact ⟨h.1 1, (h.2 hidle).1, (h.2 hidle).2 1⟩

theorem filter_motion_iff (s : TpTapState) :
    tp_filter_motion_of_state s = 1 ↔
      (s = TpTapState.TOUCH ∨ s = TpTapState.TAPPED ∨
       s = TpTapState.DRAGGING_OR_DOUBLETAP ∨ s = TpTapState.DRAGGING_OR_TAP ∨
       s = TpTapState.TOUCH_2 ∨ s = TpTapState.TOUCH_3) := by
  cases s <;> simp [tp_filter_motion_of_state]

/-- Claim C8: tp_tap_handle_state returns 0 (touching nothing) whenever
tapping is effectively disabled; otherwise its return value is 0 or 1 and
it is 1 exactly when the state after processing the tick is one of TOUCH,
TAPPED, DRAGGING_OR_DOUBLETAP, DRAGGING_OR_TAP, TOUCH_2, TOUCH_3. -/
theorem c8_handle_state_filter_motion (lenmm : Int × Int → Int × Int → ℚ)
    (tp : TpDispatch) (time : Nat) :
    (tp_tap_enabled tp = false →
      (tp_tap_handle_state lenmm tp time).2.2 = 0 ∧
      (tp_tap_handle_state lenmm tp time).1 = tp) ∧
    (tp_tap_enabled tp = true →
      (((tp_tap_handle_state lenmm tp time).2.2 = 1 ∨
        (tp_tap_handle_state lenmm tp time).2.2 = 0) ∧
       ((tp_tap_handle_state lenmm tp time).2.2 = 1 ↔
         ((tp_tap_handle_state lenmm tp time).1.tap.state = TpTapState.TOUCH ∨
          (tp_tap_handle_state lenmm tp time).1.tap.state = TpTapState.TAPPED ∨
          (tp_tap_handle_state lenmm tp time).1.tap.state =
            TpTapState.DRAGGING_OR_DOUBLETAP ∨
          (tp_tap_handle_state lenmm tp time).1.tap.state =
            TpTapState.DRAGGING_OR_TAP ∨
          (tp_tap_handle_state lenmm tp time).1.tap.state = TpTapState.TOUCH_2 ∨
          (tp_tap_handle_state lenmm tp time).1.tap.state = TpTapState.TOUCH_3)))) := by
  unfold tp_tap_handle_state
  constructor
  · intro h
    rw [if_pos h]
    exact ⟨rfl, rfl⟩
  · intro h
    rw [if_neg (by rw [h]; simp)]
    dsimp only
    constructor
    · cases hx : (tp_tap_touch_loop lenmm time
        (if tp.is_clickpad = true ∧ tp.queued_button_press = true then
          tp_apply_event tp none TapEvent.BUTTON time else (tp, [])).1 0
        (if tp.is_clickpad = true ∧ tp.queued_button_press = true then
          tp_apply_event tp none TapEvent.BUTTON time
         else (tp, [])).1.touches.length).1.tap.state <;>
        simp [tp_filter_motion_of_state, hx]
    · exact filter_motion_iff _

/-- Witness for C8: on a disabled dispatch the return value is 0; on the
enabled sample dispatch with a second finger beginning this tick the final
state is TOUCH_2 and the return value is 1. -/
theorem c8_handle_state_filter_motion_witness :
    (tp_tap_handle_state (fun _ _ => 0)
        {sampleTp with tap := {sampleTp.tap with enabled := false}} 5).2.2 = 0 ∧
    (tp_tap_handle_state (fun _ _ => 0)
        {sampleTp with touches := [{sampleTouch with state := TouchState.BEGIN}]}
        5).2.2 = 1 := by
  constructor
  · exact ((c8_handle_state_filter_motion (fun _ _ => 0)
      {sampleTp with tap := {sampleTp.tap with enabled := false}} 5).1 (by decide)).1
  · exact (((c8_handle_state_filter_motion (fun _ _ => 0)
      {sampleTp with touches := [{sampleTouch with state := TouchState.BEGIN}]} 5).2
      (by decide)).2).mpr
      (Or.inr (Or.inr (Or.inr (Or.inr (Or.inl (by decide))))))

theorem tap_eta_suspend (d : TapDispatch) (h : d.suspended = true) :
    {d with suspended := true, enabled := d.enabled} = d := by
  cases d
  simp only at h
  subst h
  rfl

theorem notify_keeps_flags (d : TapDispatch) (time n : Nat) (p : Bool) :
    (tp_tap_notify d time n p).1.suspended = d.suspended ∧
    (tp_tap_notify d time n p).1.enabled = d.enabled := by
  unfold tp_tap_notify
  dsimp only
  split_ifs <;> exact ⟨rfl, rfl⟩

theorem release_one_keeps_flags (d : TapDispatch) (now i : Nat) :
    (tp_release_one d now i).1.suspended = d.suspended ∧
    (tp_release_one d now i).1.enabled = d.enabled := by
  unfold tp_release_one
  split_ifs
  · exact notify_keeps_flags d now i false
  · exact ⟨rfl, rfl⟩

theorem release_all_keeps_flags (tp : TpDispatch) (now : Nat) :
    (tp_release_all_taps tp now).1.tap.suspended = tp.tap.suspended ∧
    (tp_release_all_taps tp now).1.tap.enabled = tp.tap.enabled := by
  unfold tp_release_all_taps
  dsimp only
  constructor
  · rw [show ∀ x : TpDispatch, x.tap.suspended = x.tap.suspended from fun _ => rfl]
    rw [(release_one_keeps_flags _ _ _).1, (release_one_keeps_flags _ _ _).1,
      (release_one_keeps_flags _ _ _).1]
  · rw [(release_one_keeps_flags _ _ _).2, (release_one_keeps_flags _ _ _).2,
      (release_one_keeps_flags _ _ _).2]

theorem suspend_flags (tp : TpDispatch) (t : Nat) :
    (tp_tap_suspend tp t).1.tap.suspended = true ∧
    (tp_tap_suspend tp t).1.tap.enabled = tp.tap.enabled := by
  unfold tp_tap_suspend tp_tap_enabled_update
  dsimp only
  split_ifs
  · exact ⟨rfl, rfl⟩
  · exact ⟨rfl, rfl⟩
  · exact release_all_keeps_flags _ _

theorem suspend_of_suspended (u : TpDispatch) (h : u.tap.suspended = true)
    (t : Nat) : tp_tap_suspend u t = (u, []) := by
  unfold tp_tap_suspend tp_tap_enabled_update
  dsimp only
  rw [if_pos (by rw [h])]
  rw [tap_eta_suspend _ h]

/-- Claim C10: tp_tap_enabled_update only stores the two flags (a no-op
otherwise) whenever the effective enablement does not change; in
particular a second suspend changes nothing and emits nothing, and resume
while the config enabled flag is false changes only the suspended flag,
leaving the FSM state, finger count, per-touch fields and buttons_pressed
untouched. -/
theorem c10_enabled_update_noop (tp : TpDispatch) (s e : Bool) (t1 t2 : Nat) :
    ((e && !s) = (tp.tap.enabled && !tp.tap.suspended) →
      tp_tap_enabled_update tp s e t1 =
        ({tp with tap := {tp.tap with suspended := s, enabled := e}}, [])) ∧
    (tp_tap_suspend ((tp_tap_suspend tp t1).1) t2 = ((tp_tap_suspend tp t1).1, [])) ∧
    (tp.tap.enabled = false →
      tp_tap_resume tp t1 = ({tp with tap := {tp.tap with suspended := false}}, [])) := by
  refine ⟨?_, ?_, ?_⟩
  · intro h
    unfold tp_tap_enabled_update
    dsimp only
    rw [if_pos h]
  · exact suspend_of_suspended _ (suspend_flags tp t1).1 t2
  · intro h
    unfold tp_tap_resume tp_tap_enabled_update
    dsimp only
    rw [if_pos (by rw [h]; simp)]

/-- Witness for C10: on the mid-gesture sample dispatch a double suspend
is inert the second time, and resume with the enabled flag off only clears
the suspended flag. -/
theorem c10_enabled_update_noop_witness :
    (tp_tap_suspend ((tp_tap_suspend sampleTp 3).1) 4 =
      ((tp_tap_suspend sampleTp 3).1, [])) ∧
    (tp_tap_resume {sampleTp with tap := {sampleTp.tap with enabled := false}} 3 =
      ({sampleTp with tap := {sampleTp.tap with enabled := false, suspended := false}},
       [])) := by
  constructor
  · exact (c10_enabled_update_noop sampleTp true true 3 4).2.1
  · exact (c10_enabled_update_noop
      {sampleTp with tap := {sampleTp.tap with enabled := false}} false false 3 4).2.2
      (by decide)


theorem shlg1 : (1 <<< 1 : Nat) = 2 := by decide

theorem shlg2 : (1 <<< 2 : Nat) = 4 := by decide

theorem shlg3 : (1 <<< 3 : Nat) = 8 := by decide

theorem xorg1 : (4294967295 ^^^ 2 : Nat) = 4294967293 := by decide

theorem xorg2 : (4294967295 ^^^ 4 : Nat) = 4294967291 := by decide

theorem xorg3 : (4294967295 ^^^ 8 : Nat) = 4294967287 := by decide

theorem landg_0_2 : (0 &&& 2 : Nat) = 0 := by decide

theorem landg_0_4 : (0 &&& 4 : Nat) = 0 := by decide

theorem landg_0_8 : (0 &&& 8 : Nat) = 0 := by decide

theorem landg_2_2 : (2 &&& 2 : Nat) = 2 := by decide

theorem landg_2_4 : (2 &&& 4 : Nat) = 0 := by decide

theorem landg_2_8 : (2 &&& 8 : Nat) = 0 := by decide

theorem landg_2_4294967293 : (2 &&& 4294967293 : Nat) = 0 := by decide

theorem landg_4_2 : (4 &&& 2 : Nat) = 0 := by decide

theorem landg_4_4 : (4 &&& 4 : Nat) = 4 := by decide

theorem landg_4_8 : (4 &&& 8 : Nat) = 0 := by decide

theorem landg_4_4294967291 : (4 &&& 4294967291 : Nat) = 0 := by decide

theorem landg_6_2 : (6 &&& 2 : Nat) = 2 := by decide

theorem landg_6_4 : (6 &&& 4 : Nat) = 4 := by decide

theorem landg_6_8 : (6 &&& 8 : Nat) = 0 := by decide

theorem landg_6_4294967293 : (6 &&& 4294967293 : Nat) = 4 := by decide

theorem landg_8_2 : (8 &&& 2 : Nat) = 0 := by decide

theorem landg_8_4 : (8 &&& 4 : Nat) = 0 := by decide

theorem landg_8_8 : (8 &&& 8 : Nat) = 8 := by decide

theorem landg_8_4294967287 : (8 &&& 4294967287 : Nat) = 0 := by decide

theorem landg_10_2 : (10 &&& 2 : Nat) = 2 := by decide

theorem landg_10_4 : (10 &&& 4 : Nat) = 0 := by decide

theorem landg_10_8 : (10 &&& 8 : Nat) = 8 := by decide

theorem landg_10_4294967293 : (10 &&& 4294967293 : Nat) = 8 := by decide

theorem landg_12_2 : (12 &&& 2 : Nat) = 0 := by decide

theorem landg_12_4 : (12 &&& 4 : Nat) = 4 := by decide

theorem landg_12_8 : (12 &&& 8 : Nat) = 8 := by decide

theorem landg_12_4294967291 : (12 &&& 4294967291 : Nat) = 8 := by decide

theorem landg_14_2 : (14 &&& 2 : Nat) = 2 := by decide

theorem landg_14_4 : (14 &&& 4 : Nat) = 4 := by decide

theorem landg_14_8 : (14 &&& 8 : Nat) = 8 := by decide

theorem landg_14_4294967293 : (14 &&& 4294967293 : Nat) = 12 := by decide

theorem eqg2 : ((2 : Nat) = 0) = False := eq_false (by decide)

theorem eqg4 : ((4 : Nat) = 0) = False := eq_false (by decide)

theorem eqg8 : ((8 : Nat) = 0) = False := eq_false (by decide)

theorem release_one_ems (d : TapDispatch) (now i : Nat) :
    ∀ em ∈ (tp_release_one d now i).2, em.pressed = false ∧ em.time = now := by
  unfold tp_release_one tp_tap_notify
  split_ifs <;> intro em hm <;> simp_all

theorem release_all_ems (tp : TpDispatch) (now : Nat) :
    ∀ em ∈ (tp_release_all_taps tp now).2, em.pressed = false ∧ em.time = now := by
  unfold tp_release_all_taps
  dsimp only
  intro em hm
  rcases List.mem_append.mp hm with hm1 | hm3
  · rcases List.mem_append.mp hm1 with hm1 | hm2
    · exact release_one_ems _ _ _ em hm1
    · exact release_one_ems _ _ _ em hm2
  · exact release_one_ems _ _ _ em hm3

theorem zip_map_prop {α β : Type _} (f : α → β) (l : List α) (P : α → β → Prop)
    (h : ∀ a ∈ l, P a (f a)) : ∀ p ∈ l.zip (l.map f), P p.1 p.2 := by
  induction l with
  | nil => intro p hp; simp at hp
  | cons x xs ih =>
      intro p hp
      simp only [List.map_cons, List.zip_cons_cons, List.mem_cons] at hp
      rcases hp with rfl | hp
      · exact h x (List.mem_cons_self x xs)
      · exact ih (fun a ha => h a (List.mem_cons_of_mem x ha)) p hp

/-- Claim C7: after tp_release_all_taps the state is IDLE, nfingers_down
is 0 and buttons_pressed is 0; for each finger count 1..3 whose bit was set
on entry exactly one release (at the call time) was emitted for it, and
every active non-palm touch was marked palm with per-touch state DEAD.  The
two hypotheses say the entry bitmask only holds bits 1..3, which is every
value tp_tap_notify can produce (it filters finger counts above 3 and sets
only the bit of its 1-, 2- or 3-finger argument). -/
theorem c7_release_all_post (tp : TpDispatch) (now : Nat)
    (hlt : tp.tap.buttons_pressed < 16) (hev : tp.tap.buttons_pressed % 2 = 0) :
    (tp_release_all_taps tp now).1.tap.state = TpTapState.IDLE ∧
    (tp_release_all_taps tp now).1.tap.nfingers_down = 0 ∧
    (tp_release_all_taps tp now).1.tap.buttons_pressed = 0 ∧
    (∀ n, 1 ≤ n → n ≤ 3 →
      releaseCount (tp_release_all_taps tp now).2 n =
        (if tp.tap.buttons_pressed &&& (1 <<< n) ≠ 0 then 1 else 0)) ∧
    (∀ em ∈ (tp_release_all_taps tp now).2, em.pressed = false ∧ em.time = now) ∧
    (tp_release_all_taps tp now).1.touches.length = tp.touches.length ∧
    (∀ p ∈ tp.touches.zip (tp_release_all_taps tp now).1.touches,
      p.1.state ≠ TouchState.NONE → p.1.tap.is_palm = false →
        p.2.tap.is_palm = true ∧ p.2.tap.state = TouchTapState.DEAD) := by
  refine ⟨rfl, rfl, ?_, ?_, release_all_ems tp now, ?_, ?_⟩
  · obtain ⟨⟨st, en, su, mp, wm, de, dl, nf, bp, spt, srt, tm⟩,
      rn, ron, ns, smt, mss, ic, qbp, touches⟩ := tp
    simp only at hlt hev ⊢
    interval_cases bp <;>
      first
        | omega
        | (simp only [tp_release_all_taps, tp_release_one, tp_tap_notify,
             shlg1, shlg2, shlg3, xorg1, xorg2, xorg3, eqg2, eqg4, eqg8,
             eq_self_iff_true, not_true, not_false_eq_true, if_true, if_false,
             Bool.false_eq_true, Bool.true_eq_false,
             ite_true, ite_false, Nat.reduceLT, landg_0_2, landg_0_4, landg_0_8, landg_2_2, landg_2_4, landg_2_8, landg_2_4294967293, landg_4_2, landg_4_4, landg_4_8, landg_4_4294967291, landg_6_2, landg_6_4, landg_6_8, landg_6_4294967293, landg_8_2, landg_8_4, landg_8_8, landg_8_4294967287, landg_10_2, landg_10_4, landg_10_8, landg_10_4294967293, landg_12_2, landg_12_4, landg_12_8, landg_12_4294967291, landg_14_2, landg_14_4, landg_14_8, landg_14_4294967293, ne_eq]
           try rfl)
  · intro n h1 h3
    obtain ⟨⟨st, en, su, mp, wm, de, dl, nf, bp, spt, srt, tm⟩,
      rn, ron, ns, smt, mss, ic, qbp, touches⟩ := tp
    simp only at hlt hev ⊢
    interval_cases n <;> interval_cases bp <;>
      first
        | omega
        | (simp only [tp_release_all_taps, tp_release_one, tp_tap_notify,
             shlg1, shlg2, shlg3, xorg1, xorg2, xorg3, eqg2, eqg4, eqg8,
             eq_self_iff_true, not_true, not_false_eq_true, if_true, if_false,
             Bool.false_eq_true, Bool.true_eq_false,
             ite_true, ite_false, Nat.reduceLT, landg_0_2, landg_0_4, landg_0_8, landg_2_2, landg_2_4, landg_2_8, landg_2_4294967293, landg_4_2, landg_4_4, landg_4_8, landg_4_4294967291, landg_6_2, landg_6_4, landg_6_8, landg_6_4294967293, landg_8_2, landg_8_4, landg_8_8, landg_8_4294967287, landg_10_2, landg_10_4, landg_10_8, landg_10_4294967293, landg_12_2, landg_12_4, landg_12_8, landg_12_4294967291, landg_14_2, landg_14_4, landg_14_8, landg_14_4294967293, ne_eq]
           try rfl)
  · unfold tp_release_all_taps
    dsimp only
    rw [List.length_map]
  · unfold tp_release_all_taps
    dsimp only
    refine zip_map_prop _ tp.touches
      (fun (a b : Touch) => a.state ≠ TouchState.NONE → a.tap.is_palm = false →
        b.tap.is_palm = true ∧ b.tap.state = TouchTapState.DEAD) ?_
    intro a _ h1 h2
    rw [if_neg h1, if_neg (by rw [h2]; simp)]
    exact ⟨rfl, rfl⟩

/-- Witness for C7: with buttons 1 and 2 pressed (bitmask 6) and one live
touch, release_all lands in IDLE with an empty bitmask, emits exactly one
release for finger count 2, and the touch comes out palm and DEAD. -/
theorem c7_release_all_post_witness :
    (tp_release_all_taps
        {sampleTp with tap := {sampleTp.tap with buttons_pressed := 6}}
        99).1.tap.state = TpTapState.IDLE ∧
    (tp_release_all_taps
        {sampleTp with tap := {sampleTp.tap with buttons_pressed := 6}}
        99).1.tap.buttons_pressed = 0 ∧
    releaseCount (tp_release_all_taps
        {sampleTp with tap := {sampleTp.tap with buttons_pressed := 6}} 99).2 2 = 1 := by
  have h := c7_release_all_post
    {sampleTp with tap := {sampleTp.tap with buttons_pressed := 6}} 99
    (by decide) (by decide)
  refine ⟨h.1, h.2.2.1, ?_⟩
  have h2 := h.2.2.2.1 2 (by decide) (by decide)
  rw [h2]
  decide

end EvdevTap
